import Mathlib

/-!
Verification of the TensorFlow Lite transposed-convolution operator
(tensorflow/lite/kernels/transpose_conv.cc).

The file embeds, in Lean:
  * the numeric scatter-accumulate kernel used by the float path
    (the kernel bodies live in reference_ops.h / optimized_ops.h, outside
    this repository snapshot, and are modelled from the specification),
  * the operator lifecycle (Prepare / Eval), the two resize helpers, the
    im2col temporary bookkeeping and the quantized-mode scratch buffer,
    translated directly from transpose_conv.cc.

Floating point values are modelled exactly, by rational numbers; machine
integers in the lifecycle code never come close to overflow for the shapes
considered, and are modelled by Int / Nat.
-/

set_option maxHeartbeats 1000000

namespace TFLTransposeConv

/-- The two registered kernel variants (enum KernelType in transpose_conv.cc). -/
inductive KernelType where
  | reference
  | genericOptimized
deriving DecidableEq, Repr

/-- Loop bounds, strides and paddings consumed by the numeric kernel: the
shape data that EvalFloat packs into tflite::ConvParams together with the
shapes of the tensors it passes along. -/
structure ConvParams where
  batches : Nat
  inH : Nat
  inW : Nat
  inD : Nat
  fH : Nat
  fW : Nat
  outD : Nat
  outH : Nat
  outW : Nat
  strideH : Nat
  strideW : Nat
  padH : Nat
  padW : Nat
deriving DecidableEq, Repr

/-- A scatter site: (batch, in_y, in_x, in_channel, filter_y, filter_x, out_channel). -/
abbrev Idx := Nat × Nat × Nat × Nat × Nat × Nat × Nat

/-- An output coordinate (batch, out_y, out_x, out_channel). -/
abbrev Out4 := Nat × Nat × Nat × Nat

/-- Output row hit by input row y through filter tap ky:  y*stride_h - pad_h + ky. -/
def oyOf (p : ConvParams) (y ky : Nat) : Int :=
  (y : Int) * p.strideH - p.padH + ky

/-- Output column hit by input column x through filter tap kx:  x*stride_w - pad_w + kx. -/
def oxOf (p : ConvParams) (x kx : Nat) : Int :=
  (x : Int) * p.strideW - p.padW + kx

/-- The in-bounds test applied before scattering a contribution. -/
def scatterGuard (p : ConvParams) : Idx → Prop
  | (_, y, x, _, ky, kx, _) =>
      0 ≤ oyOf p y ky ∧ oyOf p y ky < p.outH ∧ 0 ≤ oxOf p x kx ∧ oxOf p x kx < p.outW

instance (p : ConvParams) (t : Idx) : Decidable (scatterGuard p t) :=
  match t with
  | (_, _, _, _, _, _, _) => inferInstanceAs (Decidable (_ ∧ _ ∧ _ ∧ _))

/-- The output coordinate receiving the contribution of a scatter site. -/
def scatterKey (p : ConvParams) : Idx → Out4
  | (b, y, x, _, ky, kx, cout) =>
      (b, (oyOf p y ky).toNat, (oxOf p x kx).toNat, cout)

/-- The scattered value: input[b,y,x,c_in] * filter[c_out,ky,kx,c_in]
(filter layout OHWI, as the code comment on the channel check says). -/
def contrib (input filter : Nat → Nat → Nat → Nat → ℚ) : Idx → ℚ
  | (b, y, x, cin, ky, kx, cout) => input b y x cin * filter cout ky kx cin

/-- Add v into an accumulator at coordinate k. -/
def addAt (acc : Out4 → ℚ) (k : Out4) (v : ℚ) : Out4 → ℚ :=
  fun q => if q = k then acc q + v else acc q

/-- One iteration of the scatter loop: in-bounds contributions accumulate,
out-of-bounds ones are silently dropped. -/
def scatterStep (p : ConvParams) (input filter : Nat → Nat → Nat → Nat → ℚ)
    (acc : Out4 → ℚ) (t : Idx) : Out4 → ℚ :=
  if scatterGuard p t then addAt acc (scatterKey p t) (contrib input filter t) else acc

/-- Enumerate (i, b) with i < n and b drawn from f i, i outermost. -/
def prodEnum (n : Nat) (f : Nat → List β) : List (Nat × β) :=
  (List.range n).flatMap fun i => (f i).map (Prod.mk i)

/-- Scatter sites in the loop order of the reference kernel: batch, then
input row, input column, input channel, then filter row, filter column,
output channel. -/
def enumRef (p : ConvParams) : List Idx :=
  prodEnum p.batches fun _ =>
    prodEnum p.inH fun _ =>
      prodEnum p.inW fun _ =>
        prodEnum p.inD fun _ =>
          prodEnum p.fH fun _ =>
            prodEnum p.fW fun _ => List.range p.outD

/-- Component reshuffle taking the optimized traversal order
(b, c_out, ky, kx, y, x, c_in) back to the scatter-site layout. -/
def reorderOpt : Nat × Nat × Nat × Nat × Nat × Nat × Nat → Idx
  | (b, cout, ky, kx, y, x, cin) => (b, y, x, cin, ky, kx, cout)

/-- Scatter sites in the memory-access order of the generic-optimized
variant: output channel and filter taps hoisted over the spatial walk. -/
def enumOpt (p : ConvParams) : List Idx :=
  (prodEnum p.batches fun _ =>
    prodEnum p.outD fun _ =>
      prodEnum p.fH fun _ =>
        prodEnum p.fW fun _ =>
          prodEnum p.inH fun _ =>
            prodEnum p.inW fun _ => List.range p.inD).map reorderOpt

/-- Modelled from the spec: reference_ops::TransposeConv (float path).  The
kernel body lives in tensorflow/lite/kernels/internal/reference/reference_ops.h,
which is not part of this repository snapshot; spec 4.5 (Accumulate) gives the
algorithm: start from an all-zero accumulator and, for every input element and
every filter tap, scatter input * filter into (b, oy, ox, c_out) when that
position is inside the output, dropping out-of-bounds positions. -/
def referenceTransposeConv (p : ConvParams)
    (input filter : Nat → Nat → Nat → Nat → ℚ) : Out4 → ℚ :=
  (enumRef p).foldl (scatterStep p input filter) (fun _ => 0)

/-- Modelled from the spec: optimized_ops::TransposeConv (float path), also
outside this snapshot.  Per spec 4.5 it shares the reference kernel's loop
structure and differs only in memory access order, modelled here as the same
scatter steps taken in the reordered traversal enumOpt. -/
def optimizedTransposeConv (p : ConvParams)
    (input filter : Nat → Nat → Nat → Nat → ℚ) : Out4 → ℚ :=
  (enumOpt p).foldl (scatterStep p input filter) (fun _ => 0)

/-- The float path of Eval: EvalFloat dispatches on the template parameter to
one of the two kernel variants (transpose_conv.cc, lines 231-247). -/
def evalFloatKernel (kt : KernelType) (p : ConvParams)
    (input filter : Nat → Nat → Nat → Nat → ℚ) : Out4 → ℚ :=
  match kt with
  | .reference => referenceTransposeConv p input filter
  | .genericOptimized => optimizedTransposeConv p input filter

/-- The transposed-convolution scatter-sum at one output position, exactly as
the specification words it: the sum of input[b,y,x,c_in] * filter[c_out,ky,kx,c_in]
over all input elements and filter taps whose target position (oy, ox) is this one. -/
def scatterSum (p : ConvParams) (input filter : Nat → Nat → Nat → Nat → ℚ)
    (b oy ox cout : Nat) : ℚ :=
  ∑ y ∈ Finset.range p.inH, ∑ x ∈ Finset.range p.inW, ∑ cin ∈ Finset.range p.inD,
    ∑ ky ∈ Finset.range p.fH, ∑ kx ∈ Finset.range p.fW,
      if oyOf p y ky = (oy : Int) ∧ oxOf p x kx = (ox : Int)
      then input b y x cin * filter cout ky kx cin else 0

/-- Total contribution that a list of scatter sites sends to coordinate q. -/
def contribSum (p : ConvParams) (input filter : Nat → Nat → Nat → Nat → ℚ)
    (l : List Idx) (q : Out4) : ℚ :=
  (l.map fun t =>
    if scatterGuard p t ∧ scatterKey p t = q then contrib input filter t else 0).sum

theorem foldl_scatterStep (p : ConvParams) (input filter : Nat → Nat → Nat → Nat → ℚ)
    (l : List Idx) (acc : Out4 → ℚ) (q : Out4) :
    l.foldl (scatterStep p input filter) acc q = acc q + contribSum p input filter l q := by
  induction l generalizing acc with
  | nil => simp [contribSum]
  | cons t l ih =>
    rw [List.foldl_cons, ih]
    simp only [contribSum, List.map_cons, List.sum_cons]
    by_cases hg : scatterGuard p t
    · by_cases hk : scatterKey p t = q
      · subst hk
        simp [scatterStep, addAt, hg]
        ring
      · have hqk : q ≠ scatterKey p t := fun h => hk h.symm
        simp [scatterStep, addAt, hg, hk, hqk]
    · simp [scatterStep, hg]

theorem sum_map_flatMap (l : List α) (g : α → List β) (f : β → ℚ) :
    ((l.flatMap g).map f).sum = (l.map fun a => ((g a).map f).sum).sum := by
  induction l with
  | nil => simp
  | cons a l ih => simp [List.flatMap_cons, ih]

theorem sum_map_range (m : Nat) (g : Nat → ℚ) :
    ∑ i ∈ Finset.range m, g i = ((List.range m).map g).sum := by
  induction m with
  | zero => rfl
  | succ k ih =>
    rw [Finset.sum_range_succ, ih, List.range_succ]
    simp

theorem sum_map_prodEnum (n : Nat) (g : Nat → List β) (f : Nat × β → ℚ) :
    ((prodEnum n g).map f).sum
      = ∑ i ∈ Finset.range n, ((g i).map fun b => f (i, b)).sum := by
  rw [prodEnum, sum_map_flatMap, sum_map_range]
  congr 1
  simp [List.map_map, Function.comp_def]

theorem mem_prodEnum {n : Nat} {g : Nat → List β} {x : Nat × β} :
    x ∈ prodEnum n g ↔ x.1 < n ∧ x.2 ∈ g x.1 := by
  obtain ⟨i, b⟩ := x
  simp only [prodEnum, List.mem_flatMap, List.mem_map, List.mem_range]
  constructor
  · rintro ⟨j, hj, c, hc, h⟩
    obtain ⟨rfl, rfl⟩ := Prod.mk.injEq .. ▸ And.intro (congrArg Prod.fst h) (congrArg Prod.snd h)
    exact ⟨hj, hc⟩
  · rintro ⟨hi, hb⟩
    exact ⟨i, hi, b, hb, rfl⟩

theorem nodup_prodEnum {n : Nat} {g : Nat → List β} (h : ∀ i, (g i).Nodup) :
    (prodEnum n g).Nodup := by
  rw [prodEnum, List.nodup_flatMap]
  refine ⟨fun i _ => (h i).map fun a b hab => ?_, ?_⟩
  · exact (Prod.mk.injEq .. ▸ hab).2
  · refine (List.pairwise_lt_range n).imp ?_
    intro a b hab x hx1 hx2
    obtain ⟨c, _, rfl⟩ := List.mem_map.mp hx1
    obtain ⟨d, _, h2⟩ := List.mem_map.mp hx2
    exact absurd ((Prod.mk.injEq .. ▸ h2).1) (Nat.ne_of_gt hab)

theorem mem_enumRef {p : ConvParams} {b y x cin ky kx cout : Nat} :
    (b, y, x, cin, ky, kx, cout) ∈ enumRef p ↔
      b < p.batches ∧ y < p.inH ∧ x < p.inW ∧ cin < p.inD ∧
        ky < p.fH ∧ kx < p.fW ∧ cout < p.outD := by
  simp [enumRef, mem_prodEnum, List.mem_range]

theorem mem_enumOpt {p : ConvParams} {b y x cin ky kx cout : Nat} :
    (b, y, x, cin, ky, kx, cout) ∈ enumOpt p ↔
      b < p.batches ∧ y < p.inH ∧ x < p.inW ∧ cin < p.inD ∧
        ky < p.fH ∧ kx < p.fW ∧ cout < p.outD := by
  constructor
  · intro h
    obtain ⟨s, hs, hmap⟩ := List.mem_map.mp h
    obtain ⟨b', cout', ky', kx', y', x', cin'⟩ := s
    simp only [reorderOpt, Prod.mk.injEq] at hmap
    obtain ⟨rfl, rfl, rfl, rfl, rfl, rfl, rfl⟩ := hmap
    simp only [mem_prodEnum, List.mem_range] at hs
    tauto
  · intro hb
    refine List.mem_map.mpr ⟨(b, cout, ky, kx, y, x, cin), ?_, rfl⟩
    simp only [mem_prodEnum, List.mem_range]
    tauto

theorem nodup_enumRef (p : ConvParams) : (enumRef p).Nodup := by
  unfold enumRef
  refine nodup_prodEnum fun _ => ?_
  refine nodup_prodEnum fun _ => ?_
  refine nodup_prodEnum fun _ => ?_
  refine nodup_prodEnum fun _ => ?_
  refine nodup_prodEnum fun _ => ?_
  exact nodup_prodEnum fun _ => List.nodup_range _

theorem reorderOpt_injective : Function.Injective reorderOpt := by
  intro s t h
  obtain ⟨b, cout, ky, kx, y, x, cin⟩ := s
  obtain ⟨b', cout', ky', kx', y', x', cin'⟩ := t
  simp only [reorderOpt, Prod.mk.injEq] at h
  obtain ⟨rfl, rfl, rfl, rfl, rfl, rfl, rfl⟩ := h
  rfl

theorem nodup_enumOpt (p : ConvParams) : (enumOpt p).Nodup := by
  unfold enumOpt
  refine List.Nodup.map reorderOpt_injective ?_
  refine nodup_prodEnum fun _ => ?_
  refine nodup_prodEnum fun _ => ?_
  refine nodup_prodEnum fun _ => ?_
  refine nodup_prodEnum fun _ => ?_
  refine nodup_prodEnum fun _ => ?_
  exact nodup_prodEnum fun _ => List.nodup_range _

/-- The two traversal orders visit exactly the same scatter sites. -/
theorem enumRef_perm_enumOpt (p : ConvParams) : (enumRef p).Perm (enumOpt p) := by
  classical
  refine List.perm_of_nodup_nodup_toFinset_eq (nodup_enumRef p) (nodup_enumOpt p) ?_
  ext t
  obtain ⟨b, y, x, cin, ky, kx, cout⟩ := t
  simp only [List.mem_toFinset, mem_enumRef, mem_enumOpt]

/-- The generic-optimized float kernel computes the same accumulator function
as the reference float kernel: the scattered contributions are the same
multiset, only their traversal order differs. -/
theorem optimizedTransposeConv_eq_reference (p : ConvParams)
    (input filter : Nat → Nat → Nat → Nat → ℚ) :
    optimizedTransposeConv p input filter = referenceTransposeConv p input filter := by
  funext q
  rw [optimizedTransposeConv, referenceTransposeConv, foldl_scatterStep, foldl_scatterStep]
  have h := ((enumRef_perm_enumOpt p).map
    (fun t => if scatterGuard p t ∧ scatterKey p t = q then contrib input filter t else 0)).sum_eq
  simp only [contribSum]
  rw [h]

theorem contribSum_enumRef_eq_scatterSum (p : ConvParams)
    (input filter : Nat → Nat → Nat → Nat → ℚ) (b oy ox cout : Nat)
    (hb : b < p.batches) (hoy : oy < p.outH) (hox : ox < p.outW) (hc : cout < p.outD) :
    contribSum p input filter (enumRef p) (b, oy, ox, cout)
      = scatterSum p input filter b oy ox cout := by
  unfold contribSum enumRef scatterSum
  rw [sum_map_prodEnum]
  rw [Finset.sum_eq_single_of_mem b (Finset.mem_range.mpr hb) ?side_b]
  case side_b =>
    intro b' _ hne
    refine List.sum_eq_zero fun v hv => ?_
    obtain ⟨t1, _, rfl⟩ := List.mem_map.mp hv
    obtain ⟨y, x, cin, ky, kx, c⟩ := t1
    simp only [scatterKey, scatterGuard, Prod.mk.injEq]
    rw [if_neg]
    rintro ⟨-, rfl, -⟩
    exact hne rfl
  rw [sum_map_prodEnum]
  refine Finset.sum_congr rfl fun y _ => ?_
  rw [sum_map_prodEnum]
  refine Finset.sum_congr rfl fun x _ => ?_
  rw [sum_map_prodEnum]
  refine Finset.sum_congr rfl fun cin _ => ?_
  rw [sum_map_prodEnum]
  refine Finset.sum_congr rfl fun ky _ => ?_
  rw [sum_map_prodEnum]
  refine Finset.sum_congr rfl fun kx _ => ?_
  rw [← sum_map_range]
  rw [Finset.sum_eq_single_of_mem cout (Finset.mem_range.mpr hc) ?side_c]
  case side_c =>
    intro c _ hne
    simp only [scatterKey, scatterGuard, Prod.mk.injEq]
    rw [if_neg]
    rintro ⟨-, -, -, -, rfl⟩
    exact hne rfl
  simp only [scatterKey, scatterGuard, contrib, Prod.mk.injEq, true_and, and_true]
  refine if_congr ?_ rfl rfl
  unfold oyOf oxOf
  constructor
  · rintro ⟨⟨h1, h2, h3, h4⟩, h5, h6⟩
    omega
  · rintro ⟨h1, h2⟩
    refine ⟨⟨?_, ?_, ?_, ?_⟩, ?_, ?_⟩ <;> omega

/-- The reference float kernel, applied at any in-bounds output coordinate,
computes the transposed-convolution scatter-sum there. -/
theorem referenceTransposeConv_eq_scatterSum (p : ConvParams)
    (input filter : Nat → Nat → Nat → Nat → ℚ) (b oy ox cout : Nat)
    (hb : b < p.batches) (hoy : oy < p.outH) (hox : ox < p.outW) (hc : cout < p.outD) :
    referenceTransposeConv p input filter (b, oy, ox, cout)
      = scatterSum p input filter b oy ox cout := by
  rw [referenceTransposeConv, foldl_scatterStep, contribSum_enumRef_eq_scatterSum
    p input filter b oy ox cout hb hoy hox hc]
  simp

/-! ## Operator lifecycle: tensors, Prepare and Eval -/

/-- Element types the operator distinguishes (TfLiteType, restricted). -/
inductive TfType where
  | float32
  | uint8
  | int32
  | otherType
deriving DecidableEq, Repr

/-- Allocation discipline of a tensor (TfLiteAllocationType, restricted to the
kinds transpose_conv.cc manipulates).  dynamicAlloc is kTfLiteDynamic. -/
inductive AllocType where
  | arenaRw
  | dynamicAlloc
  | memNone
deriving DecidableEq, Repr

/-- A TfLiteTensor as this operator observes it: element type, shape,
allocation kind, constness, an int32 payload (used by the output-shape spec),
a float payload in NHWC layout, and affine quantization parameters. -/
structure Tensor where
  type : TfType := .float32
  dims : List Int := []
  alloc : AllocType := .arenaRw
  isConst : Bool := false
  dataI32 : List Int := []
  dataF : Nat → Nat → Nat → Nat → ℚ := fun _ _ _ _ => 0
  scale : ℚ := 1
  zeroPoint : Int := 0

/-- The TfLiteContext tensor table. -/
structure Context where
  tensors : List Tensor

/-- The node's tensor wiring: inputs are [output-shape spec, weights, data
input], outputs is [output], temporaries as managed by the operator. -/
structure Node where
  inputs : List Nat
  outputs : List Nat
  temporaries : List Nat

/-- OpData from transpose_conv.cc.  kTensorNotAllocated (= -1) becomes none. -/
structure OpData where
  im2col_id : Option Nat := none
  im2col_index : Nat := 0
  paddingH : Int := 0
  paddingW : Int := 0
  output_multiplier : Int := 0
  output_shift : Int := 0
  output_activation_min : Int := 0
  output_activation_max : Int := 0
  scratch_tensor_index : Nat := 0

/-- TfLitePadding: kTfLitePaddingSame / kTfLitePaddingValid. -/
inductive PaddingMode where
  | same
  | valid
deriving DecidableEq, Repr

/-- TfLiteTransposeConvParams: the immutable operator configuration. -/
structure TCParams where
  padding : PaddingMode
  strideH : Nat
  strideW : Nat
deriving DecidableEq, Repr

/-- One constructor per failure site of transpose_conv.cc. -/
inductive OpError where
  | numInputsNot3
  | numOutputsNot1
  | outputShapeRankNot1
  | inputRankNot4
  | weightsRankNot4
  | unsupportedInputType
  | weightsTypeMismatch
  | outputTypeMismatch
  | channelMismatch
  | shapeTensorNotInt32
  | shapeTensorCountNot4
  | unsupportedEvalType
deriving DecidableEq, Repr

/-- The spec's ShapeError class (section 7): malformed output-shape spec or
rank mismatch. -/
def OpError.isShapeError : OpError → Bool
  | .outputShapeRankNot1 | .inputRankNot4 | .weightsRankNot4
  | .shapeTensorNotInt32 | .shapeTensorCountNot4 | .channelMismatch => true
  | _ => false

/-- The spec's TypeError class (section 7). -/
def OpError.isTypeError : OpError → Bool
  | .unsupportedInputType | .weightsTypeMismatch | .outputTypeMismatch
  | .unsupportedEvalType => true
  | _ => false

def getTensor (c : Context) (i : Nat) : Tensor := c.tensors.getD i ({} : Tensor)

def setTensor (c : Context) (i : Nat) (t : Tensor) : Context := ⟨c.tensors.set i t⟩

/-- context->AddTensors(context, 1, &id): append one blank tensor, return its id. -/
def addTensor (c : Context) : Context × Nat := (⟨c.tensors ++ [({} : Tensor)]⟩, c.tensors.length)

/-- NumElements: number of elements of a tensor, from its shape. -/
def numElements (t : Tensor) : Nat := (t.dims.map Int.toNat).prod

/-- SizeOfDimension(t, i). -/
def dimOf (t : Tensor) (i : Nat) : Int := t.dims.getD i 0

def isDynamic (t : Tensor) : Bool := t.alloc = .dynamicAlloc

/-- SetTensorToDynamic on the tensor at index i. -/
def markDynamic (c : Context) (i : Nat) : Context :=
  setTensor c i { getTensor c i with alloc := .dynamicAlloc }

/-- ResizeTensor (transpose_conv.cc, lines 89-105): reject a non-int32 shape
tensor, otherwise resize the target to the NumElements(shape_tensor) values
of the shape tensor's int32 payload. -/
def resizeTensor (c : Context) (shapeIdx targetIdx : Nat) : Except OpError Context :=
  let st := getTensor c shapeIdx
  if st.type ≠ .int32 then .error .shapeTensorNotInt32
  else
    .ok (setTensor c targetIdx
      { getTensor c targetIdx with dims := st.dataI32.take (numElements st) })

/-- ResizeIm2ColTensor (transpose_conv.cc, lines 122-145): reject a non-int32
or non-4-element output-shape tensor, then size the im2col tensor to
(spec[0], spec[1], spec[2], input_depth * filter_height * filter_width),
marking it dynamic and giving it the input's element type. -/
def resizeIm2colTensor (c : Context) (shapeIdx weightsIdx inputIdx im2colIdx : Nat) :
    Except OpError Context :=
  let os := getTensor c shapeIdx
  if os.type ≠ .int32 then .error .shapeTensorNotInt32
  else if numElements os ≠ 4 then .error .shapeTensorCountNot4
  else
    let input := getTensor c inputIdx
    let weights := getTensor c weightsIdx
    let newDims := [os.dataI32.getD 0 0, os.dataI32.getD 1 0, os.dataI32.getD 2 0,
      dimOf input 3 * dimOf weights 1 * dimOf weights 2]
    .ok (setTensor c im2colIdx
      { getTensor c im2colIdx with type := input.type, alloc := .dynamicAlloc, dims := newDims })

/-- AllocateIm2colTensorIfRequired (lines 107-120): allocate the im2col tensor
slot on first use (and set its element type to float32), then rebuild
node->temporaries as the one-element array holding the im2col id. -/
def allocateIm2colTensorIfRequired (c : Context) (n : Node) (d : OpData) :
    Context × Node × OpData :=
  let (c1, d1) :=
    match d.im2col_id with
    | none =>
        let (ca, id) := addTensor c
        (setTensor ca id { getTensor ca id with type := .float32 },
         { d with im2col_id := some id })
    | some _ => (c, d)
  let id := d1.im2col_id.getD 0
  (c1, { n with temporaries := [id] }, d1)

/-- Modelled from the spec: ComputeOutSize from tensorflow/lite/kernels/padding.h,
an external collaborator of this core (spec section 4.2); standard TFLite output
size arithmetic for SAME and VALID padding. -/
def computeOutSize (mode : PaddingMode) (imageSize filterSize stride : Int) : Int :=
  match mode with
  | .same => Int.tdiv (imageSize + stride - 1) stride
  | .valid => Int.tdiv (imageSize - filterSize + stride) stride

/-- Modelled from the spec: ComputePadding from padding.h (spec section 4.2):
half the total padding implied by stride, filter and sizes, clamped at zero. -/
def computePaddingVal (stride inSize filterSize outSize : Int) : Int :=
  let padding := Int.tdiv ((outSize - 1) * stride + filterSize - inSize) 2
  if padding > 0 then padding else 0

/-- Modelled from the spec: ComputePaddingHeightWidth from padding.h (spec
section 4.2), with dilation 1, returning (padding.height, padding.width). -/
def computePaddingHeightWidth (strideH strideW : Nat) (height width filterH filterW : Int)
    (mode : PaddingMode) : Int × Int :=
  let outW := computeOutSize mode width filterW strideW
  let outH := computeOutSize mode height filterH strideH
  (computePaddingVal strideH height filterH outH,
   computePaddingVal strideW width filterW outW)

/-- Prepare (transpose_conv.cc, lines 147-219), with the error state carried on
failure.  The quantize-multiplier decomposition QuantizeMultiplier is an
external collaborator, passed in as qm; the combined scale
input.scale * filter.scale / output.scale and the uint8 activation range 0..255
are modelled from the spec (sections 4.4 and 6), their sources being outside
this snapshot. -/
def prepare (qm : ℚ → Int × Int) (c0 : Context) (n0 : Node) (d0 : OpData) :
    Except (OpError × Context × Node × OpData) (Context × Node × OpData) :=
  if n0.inputs.length ≠ 3 then .error (.numInputsNot3, c0, n0, d0)
  else if n0.outputs.length ≠ 1 then .error (.numOutputsNot1, c0, n0, d0)
  else
    let s1 := allocateIm2colTensorIfRequired c0 n0 d0
    let c1 := s1.1
    let n1 := s1.2.1
    let d1 := s1.2.2
    let outputShapeIdx := n1.inputs.getD 0 0
    let weightsIdx := n1.inputs.getD 1 0
    let inputIdx := n1.inputs.getD 2 0
    let outputIdx := n1.outputs.getD 0 0
    let im2colIdx := n1.temporaries.getD d1.im2col_index 0
    let outputShape := getTensor c1 outputShapeIdx
    let weights := getTensor c1 weightsIdx
    let input := getTensor c1 inputIdx
    let output := getTensor c1 outputIdx
    if outputShape.dims.length ≠ 1 then .error (.outputShapeRankNot1, c1, n1, d1)
    else if input.dims.length ≠ 4 then .error (.inputRankNot4, c1, n1, d1)
    else if weights.dims.length ≠ 4 then .error (.weightsRankNot4, c1, n1, d1)
    else if ¬(input.type = .float32 ∨ input.type = .uint8) then
      .error (.unsupportedInputType, c1, n1, d1)
    else if weights.type ≠ input.type then .error (.weightsTypeMismatch, c1, n1, d1)
    else if output.type ≠ input.type then .error (.outputTypeMismatch, c1, n1, d1)
    else if dimOf input 3 ≠ dimOf weights 3 then .error (.channelMismatch, c1, n1, d1)
    else
      let resized : Except (OpError × Context × Node × OpData) Context :=
        if !outputShape.isConst then
          .ok (markDynamic (markDynamic c1 outputIdx) im2colIdx)
        else
          match resizeTensor c1 outputShapeIdx outputIdx with
          | .error e => .error (e, c1, n1, d1)
          | .ok c2 =>
              match resizeIm2colTensor c2 outputShapeIdx weightsIdx inputIdx im2colIdx with
              | .error e => .error (e, c2, n1, d1)
              | .ok c3 => .ok c3
      match resized with
      | .error e => .error e
      | .ok c3 =>
          if input.type = .uint8 then
            let n2 := { n1 with temporaries := [d1.scratch_tensor_index] }
            let scratchIdx := d1.scratch_tensor_index
            let c4 := setTensor c3 scratchIdx
              { getTensor c3 scratchIdx with type := .int32, alloc := .arenaRw }
            let afterScratch : Except (OpError × Context × Node × OpData) Context :=
              if !outputShape.isConst then .ok (markDynamic c4 scratchIdx)
              else
                match resizeTensor c4 outputShapeIdx scratchIdx with
                | .error e => .error (e, c4, n2, d1)
                | .ok c5 => .ok c5
            match afterScratch with
            | .error e => .error e
            | .ok c5 =>
                let realMultiplier := input.scale * weights.scale / output.scale
                let me := qm realMultiplier
                let d2 := { d1 with
                  output_multiplier := me.1
                  output_shift := -me.2
                  output_activation_min := 0
                  output_activation_max := 255 }
                .ok (c5, n2, d2)
          else
            .ok (c3, n1, d1)

/-- The ConvParams data EvalFloat hands to the float kernel (lines 221-249). -/
structure FloatKernelArgs where
  paddingH : Int
  paddingW : Int
  strideH : Nat
  strideW : Nat
  inputIdx : Nat
  weightsIdx : Nat
  im2colIdx : Nat
  outputIdx : Nat
deriving DecidableEq, Repr

/-- The ConvParams data EvalQuantized hands to the quantized reference kernel
(lines 251-280). -/
structure QuantKernelArgs where
  paddingH : Int
  paddingW : Int
  strideH : Nat
  strideW : Nat
  inputOffset : Int
  weightsOffset : Int
  outputOffset : Int
  outputMultiplier : Int
  outputShift : Int
  activationMin : Int
  activationMax : Int
  inputIdx : Nat
  weightsIdx : Nat
  im2colIdx : Nat
  outputIdx : Nat
  scratchIdx : Nat
deriving DecidableEq, Repr

/-- Which numeric kernel Eval invoked, and with what arguments. -/
inductive KernelInvocation where
  | floatCall (a : FloatKernelArgs)
  | quantCall (a : QuantKernelArgs)

/-- Eval (transpose_conv.cc, lines 282-339): resize deferred dynamic tensors
from the current output-shape spec, recompute the padding from the freshly
resolved output and the filter, then dispatch on the data input's type,
returning the argument record handed to the numeric kernel. -/
def eval (params : TCParams) (c0 : Context) (n0 : Node) (d0 : OpData) :
    Except (OpError × Context × OpData) (Context × OpData × KernelInvocation) :=
  let outputShapeIdx := n0.inputs.getD 0 0
  let weightsIdx := n0.inputs.getD 1 0
  let inputIdx := n0.inputs.getD 2 0
  let outputIdx := n0.outputs.getD 0 0
  let im2colIdx := n0.temporaries.getD d0.im2col_index 0
  let step1 : Except (OpError × Context × OpData) Context :=
    if isDynamic (getTensor c0 outputIdx) then
      match resizeTensor c0 outputShapeIdx outputIdx with
      | .error e => .error (e, c0, d0)
      | .ok c => .ok c
    else .ok c0
  match step1 with
  | .error e => .error e
  | .ok c1 =>
      let step2 : Except (OpError × Context × OpData) Context :=
        if isDynamic (getTensor c1 im2colIdx) then
          match resizeIm2colTensor c1 outputShapeIdx weightsIdx inputIdx im2colIdx with
          | .error e => .error (e, c1, d0)
          | .ok c => .ok c
        else .ok c1
      match step2 with
      | .error e => .error e
      | .ok c2 =>
          let output := getTensor c2 outputIdx
          let weights := getTensor c2 weightsIdx
          let width := dimOf output 2
          let height := dimOf output 1
          let filterW := dimOf weights 2
          let filterH := dimOf weights 1
          let pad := computePaddingHeightWidth params.strideH params.strideW
            height width filterH filterW params.padding
          let d1 := { d0 with paddingH := pad.1, paddingW := pad.2 }
          match (getTensor c2 inputIdx).type with
          | .float32 =>
              .ok (c2, d1, .floatCall {
                paddingH := d1.paddingH, paddingW := d1.paddingW,
                strideH := params.strideH, strideW := params.strideW,
                inputIdx := inputIdx, weightsIdx := weightsIdx,
                im2colIdx := im2colIdx, outputIdx := outputIdx })
          | .uint8 =>
              let scratchIdx := n0.temporaries.getD 0 0
              let step3 : Except (OpError × Context × OpData) Context :=
                if isDynamic (getTensor c2 scratchIdx) then
                  match resizeTensor c2 outputShapeIdx scratchIdx with
                  | .error e => .error (e, c2, d1)
                  | .ok c => .ok c
                else .ok c2
              match step3 with
              | .error e => .error e
              | .ok c3 =>
                  .ok (c3, d1, .quantCall {
                    paddingH := d1.paddingH, paddingW := d1.paddingW,
                    strideH := params.strideH, strideW := params.strideW,
                    inputOffset := -(getTensor c2 inputIdx).zeroPoint,
                    weightsOffset := -(getTensor c2 weightsIdx).zeroPoint,
                    outputOffset := (getTensor c2 outputIdx).zeroPoint,
                    outputMultiplier := d1.output_multiplier,
                    outputShift := -d1.output_shift,
                    activationMin := d1.output_activation_min,
                    activationMax := d1.output_activation_max,
                    inputIdx := inputIdx, weightsIdx := weightsIdx,
                    im2colIdx := im2colIdx, outputIdx := outputIdx,
                    scratchIdx := scratchIdx })
          | _ => .error (.unsupportedEvalType, c2, d1)

/-! ## Result projections and concrete fixtures -/

def prepStateD (r : Except (OpError × Context × Node × OpData) (Context × Node × OpData)) :
    Context × Node × OpData :=
  match r with
  | .ok s => s
  | .error _ => (⟨[]⟩, ⟨[], [], []⟩, {})

def prepErr (r : Except (OpError × Context × Node × OpData) (Context × Node × OpData)) :
    Option OpError :=
  match r with
  | .error (e, _) => some e
  | .ok _ => none

def prepErrState (r : Except (OpError × Context × Node × OpData) (Context × Node × OpData)) :
    Context × Node × OpData :=
  match r with
  | .error (_, s) => s
  | .ok _ => (⟨[]⟩, ⟨[], [], []⟩, {})

def prepIsOk (r : Except (OpError × Context × Node × OpData) (Context × Node × OpData)) :
    Bool :=
  match r with
  | .ok _ => true
  | .error _ => false

def evalInv (r : Except (OpError × Context × OpData) (Context × OpData × KernelInvocation)) :
    Option KernelInvocation :=
  match r with
  | .ok (_, _, inv) => some inv
  | .error _ => none

def evalErr (r : Except (OpError × Context × OpData) (Context × OpData × KernelInvocation)) :
    Option OpError :=
  match r with
  | .error (e, _) => some e
  | .ok _ => none

def evalOkCtx (r : Except (OpError × Context × OpData) (Context × OpData × KernelInvocation)) :
    Context :=
  match r with
  | .ok (c, _, _) => c
  | .error _ => ⟨[]⟩

def quantArgsOf : Option KernelInvocation → Option QuantKernelArgs
  | some (.quantCall qa) => some qa
  | _ => none

def floatArgsOf : Option KernelInvocation → Option FloatKernelArgs
  | some (.floatCall fa) => some fa
  | _ => none

/-- All-ones float payload. -/
def onesF : Nat → Nat → Nat → Nat → ℚ := fun _ _ _ _ => 1

/-- A well-formed operator state right after Init: output-shape spec [1,3,3,1]
(tensor 0), 1x2x2x1 all-ones weights (tensor 1), 1x2x2x1 all-ones input
(tensor 2), output (tensor 3), and the Init-allocated scratch slot (tensor 4). -/
def mkCtx (specConst : Bool) (ty : TfType) : Context :=
  ⟨[{ type := .int32, dims := [4], dataI32 := [1, 3, 3, 1], isConst := specConst },
    { type := ty, dims := [1, 2, 2, 1], dataF := onesF },
    { type := ty, dims := [1, 2, 2, 1], dataF := onesF },
    { type := ty },
    {}]⟩

def node0 : Node := ⟨[0, 1, 2], [3], []⟩

def data0 : OpData := { scratch_tensor_index := 4 }

/-- A stand-in for the external QuantizeMultiplier decomposition. -/
def qm0 : ℚ → Int × Int := fun _ => (1073741824, -2)

def tcp0 : TCParams := ⟨.valid, 1, 1⟩

/-! ## C3: the unfold buffer consumed by Eval aliases the accumulator -/

def c3Prep := prepare qm0 (mkCtx true .uint8) node0 data0

def c3State := prepStateD c3Prep

def c3Eval := eval tcp0 c3State.1 c3State.2.1 c3State.2.2

/-- C3: the claim says that in quantized mode the unfold (im2col) buffer
consumed during execute is never the same tensor as the 32-bit accumulator
buffer.  The code violates this: the uint8 branch of Prepare rebuilds
node->temporaries to hold only scratch_tensor_index, so Eval's im2col lookup
(temporaries[im2col_index]) and its scratch lookup (temporaries[0]) return the
same tensor (index 4 here), even though a distinct im2col tensor (index 5) was
allocated. -/
theorem C3_unfold_buffer_aliases_accumulator :
    (quantArgsOf (evalInv c3Eval)).map (fun qa => (qa.im2colIdx, qa.scratchIdx))
        = some (4, 4)
      ∧ c3State.2.2.im2col_id = some 5
      ∧ c3State.2.2.scratch_tensor_index = 4 := by
  refine ⟨?_, ?_, ?_⟩ <;> decide

/-! ## C6: with a dynamic spec in quantized mode, Eval never resizes the
tensor Prepare marked dynamic as the unfold buffer -/

def c6Prep := prepare qm0 (mkCtx false .uint8) node0 data0

def c6State := prepStateD c6Prep

def c6Eval := eval tcp0 c6State.1 c6State.2.1 c6State.2.2

def c6Ctx := evalOkCtx c6Eval

/-- C6: the claim says that for a non-constant spec Prepare marks output,
unfold buffer (and in quantized mode the accumulator) dynamic and every
execute call resizes them at its start.  In quantized mode the code violates
this: Prepare marks the true unfold tensor (index 5) dynamic, but Eval's
temporaries-based lookup aliases the accumulator (index 4), so Eval completes
while tensor 5 is still dynamic with an empty shape; the accumulator tensor is
resized twice instead, ending output-shaped and retyped to uint8 by the
unfold-shaped intermediate resize. -/
theorem C6_quantized_dynamic_unfold_never_resized :
    prepIsOk c6Prep = true
      ∧ c6State.2.2.im2col_id = some 5
      ∧ (getTensor c6State.1 5).alloc = .dynamicAlloc
      ∧ (quantArgsOf (evalInv c6Eval)).isSome = true
      ∧ (getTensor c6Ctx 5).dims = []
      ∧ (getTensor c6Ctx 5).alloc = .dynamicAlloc
      ∧ (getTensor c6Ctx 3).dims = [1, 3, 3, 1]
      ∧ (getTensor c6Ctx 4).dims = [1, 3, 3, 1]
      ∧ (getTensor c6Ctx 4).type = .uint8 := by
  refine ⟨?_, ?_, ?_, ?_, ?_, ?_, ?_, ?_, ?_⟩ <;> decide

/-! ## The float path end to end: Eval followed by the float kernel -/

/-- The loop bounds the float kernel derives from the tensors and ConvParams
it receives: NHWC input and output shapes, OHWI filter shape, strides and the
freshly computed paddings. -/
def convParamsOf (params : TCParams) (padH padW : Int) (input weights output : Tensor) :
    ConvParams :=
  { batches := (dimOf input 0).toNat
    inH := (dimOf input 1).toNat
    inW := (dimOf input 2).toNat
    inD := (dimOf input 3).toNat
    fH := (dimOf weights 1).toNat
    fW := (dimOf weights 2).toNat
    outD := (dimOf output 3).toNat
    outH := (dimOf output 1).toNat
    outW := (dimOf output 2).toNat
    strideH := params.strideH
    strideW := params.strideW
    padH := padH.toNat
    padW := padW.toNat }

/-- Run Eval and, when it dispatched to the float kernel, the kernel itself;
out of the float path the value is 0. -/
def evalFloatValue (kt : KernelType) (params : TCParams) (c : Context) (n : Node)
    (d : OpData) (q : Out4) : ℚ :=
  match eval params c n d with
  | .ok (c', _, .floatCall fa) =>
      evalFloatKernel kt
        (convParamsOf params fa.paddingH fa.paddingW
          (getTensor c' fa.inputIdx) (getTensor c' fa.weightsIdx) (getTensor c' fa.outputIdx))
        (getTensor c' fa.inputIdx).dataF (getTensor c' fa.weightsIdx).dataF q
  | _ => 0

/-! ## C1, C9: the float kernel against the scatter-sum -/

/-- C1: for every float input (modelled exactly, over ℚ), the float-path
output at each output position of the resolved output equals the
transposed-convolution scatter-sum: the total of input[b,y,x,c_in] *
filter[c_out,ky,kx,c_in] over all input elements and filter taps with
(y*stride_h - pad_h + ky, x*stride_w - pad_w + kx) = (oy, ox), out-of-bounds
targets contributing nothing. -/
theorem C1_float_path_equals_scatter_sum (kt : KernelType) (p : ConvParams)
    (input filter : Nat → Nat → Nat → Nat → ℚ) (b oy ox cout : Nat)
    (hb : b < p.batches) (hoy : oy < p.outH) (hox : ox < p.outW) (hc : cout < p.outD) :
    evalFloatKernel kt p input filter (b, oy, ox, cout)
      = scatterSum p input filter b oy ox cout := by
  cases kt with
  | reference =>
      exact referenceTransposeConv_eq_scatterSum p input filter b oy ox cout hb hoy hox hc
  | genericOptimized =>
      rw [show evalFloatKernel .genericOptimized p input filter
            = optimizedTransposeConv p input filter from rfl,
        optimizedTransposeConv_eq_reference]
      exact referenceTransposeConv_eq_scatterSum p input filter b oy ox cout hb hoy hox hc

/-- Witness for C1 at the all-ones 2x2 configuration, output position (0,1,1,0). -/
theorem C1_witness :
    (0 < (⟨1, 2, 2, 1, 2, 2, 1, 3, 3, 1, 1, 0, 0⟩ : ConvParams).batches
        ∧ 1 < (⟨1, 2, 2, 1, 2, 2, 1, 3, 3, 1, 1, 0, 0⟩ : ConvParams).outH
        ∧ 1 < (⟨1, 2, 2, 1, 2, 2, 1, 3, 3, 1, 1, 0, 0⟩ : ConvParams).outW
        ∧ 0 < (⟨1, 2, 2, 1, 2, 2, 1, 3, 3, 1, 1, 0, 0⟩ : ConvParams).outD)
      ∧ evalFloatKernel .reference ⟨1, 2, 2, 1, 2, 2, 1, 3, 3, 1, 1, 0, 0⟩ onesF onesF
            (0, 1, 1, 0)
          = scatterSum ⟨1, 2, 2, 1, 2, 2, 1, 3, 3, 1, 1, 0, 0⟩ onesF onesF 0 1 1 0 :=
  ⟨by decide, C1_float_path_equals_scatter_sum .reference _ onesF onesF 0 1 1 0
    (by decide) (by decide) (by decide) (by decide)⟩

/-- C9: for every parameter set and float input and filter, the reference
kernel variant and the generic-optimized kernel variant produce identical
output tensors (exact-arithmetic model: both accumulate the same multiset of
contributions). -/
theorem C9_kernel_variants_bit_identical (p : ConvParams)
    (input filter : Nat → Nat → Nat → Nat → ℚ) :
    evalFloatKernel .reference p input filter
      = evalFloatKernel .genericOptimized p input filter :=
  (optimizedTransposeConv_eq_reference p input filter).symm

/-! ## C2: the concrete all-ones 2x2 scenario through Prepare and Eval -/

def c2P : ConvParams := ⟨1, 2, 2, 1, 2, 2, 1, 3, 3, 1, 1, 0, 0⟩

def c2Prep := prepare qm0 (mkCtx true .float32) node0 data0

def c2State := prepStateD c2Prep

def c2EvalRes := eval tcp0 c2State.1 c2State.2.1 c2State.2.2

def c2Val (q : Out4) : ℚ :=
  evalFloatValue .reference tcp0 c2State.1 c2State.2.1 c2State.2.2 q

/-- C2: input (1,2,2,1) all ones, filter (1,2,2,1) all ones, stride (1,1),
output-shape spec (1,3,3,1), valid (exact-fit) padding: Prepare succeeds,
Eval dispatches to the float kernel with padding (0,0), and the produced 3x3
output has value 4 at the center, 2 at the four edge cells and 1 at the four
corners. -/
theorem C2_concrete_all_ones_scenario :
    prepIsOk c2Prep = true
      ∧ (floatArgsOf (evalInv c2EvalRes)).map (fun fa => (fa.paddingH, fa.paddingW))
          = some (0, 0)
      ∧ c2Val (0, 0, 0, 0) = 1 ∧ c2Val (0, 0, 1, 0) = 2 ∧ c2Val (0, 0, 2, 0) = 1
      ∧ c2Val (0, 1, 0, 0) = 2 ∧ c2Val (0, 1, 1, 0) = 4 ∧ c2Val (0, 1, 2, 0) = 2
      ∧ c2Val (0, 2, 0, 0) = 1 ∧ c2Val (0, 2, 1, 0) = 2 ∧ c2Val (0, 2, 2, 0) = 1 := by
  have hred : c2Val = referenceTransposeConv c2P onesF onesF := rfl
  have key : ∀ oy ox : Nat, oy < 3 → ox < 3 →
      c2Val (0, oy, ox, 0) = scatterSum c2P onesF onesF 0 oy ox 0 := by
    intro oy ox hy hx
    rw [hred]
    exact referenceTransposeConv_eq_scatterSum c2P onesF onesF 0 oy ox 0
      (by decide) hy hx (by decide)
  refine ⟨by decide, by decide, ?_, ?_, ?_, ?_, ?_, ?_, ?_, ?_, ?_⟩ <;>
    rw [key _ _ (by decide) (by decide)] <;>
    · simp only [scatterSum, oyOf, oxOf, onesF, c2P, Finset.sum_range_succ,
        Finset.sum_range_zero]
      norm_num

/-! ## Context bookkeeping lemmas -/

theorem getTensor_setTensor_self {c : Context} {i : Nat} (t : Tensor)
    (h : i < c.tensors.length) : getTensor (setTensor c i t) i = t := by
  simp [getTensor, setTensor, List.getD_eq_getElem?_getD, List.getElem?_set_self, h]

theorem getTensor_setTensor_ne {c : Context} {i j : Nat} (t : Tensor) (h : i ≠ j) :
    getTensor (setTensor c i t) j = getTensor c j := by
  simp [getTensor, setTensor, List.getD_eq_getElem?_getD, List.getElem?_set_ne h]

theorem length_setTensor (c : Context) (i : Nat) (t : Tensor) :
    (setTensor c i t).tensors.length = c.tensors.length := by
  simp [setTensor]

theorem getTensor_markDynamic_ne {c : Context} {i j : Nat} (h : i ≠ j) :
    getTensor (markDynamic c i) j = getTensor c j :=
  getTensor_setTensor_ne _ h

theorem length_markDynamic (c : Context) (i : Nat) :
    (markDynamic c i).tensors.length = c.tensors.length :=
  length_setTensor ..

theorem getTensor_markDynamic_self {c : Context} {i : Nat} (h : i < c.tensors.length) :
    getTensor (markDynamic c i) i = { getTensor c i with alloc := .dynamicAlloc } :=
  getTensor_setTensor_self _ h

/-! ## C8: shape of the resized unfold buffer -/

/-- C8: whenever the unfold (im2col) buffer is resized, its resulting shape is
exactly (spec[0], spec[1], spec[2], input-channels * filter-height *
filter-width): the first three dimensions come from the output-shape spec and
the last is the product of the input's channel count and the filter's spatial
dimensions. -/
theorem C8_im2col_resize_shape (c : Context) (specIdx wIdx inIdx imIdx : Nat) (c' : Context)
    (him : imIdx < c.tensors.length)
    (h : resizeIm2colTensor c specIdx wIdx inIdx imIdx = .ok c') :
    (getTensor c' imIdx).dims
      = [(getTensor c specIdx).dataI32.getD 0 0,
         (getTensor c specIdx).dataI32.getD 1 0,
         (getTensor c specIdx).dataI32.getD 2 0,
         dimOf (getTensor c inIdx) 3
           * (dimOf (getTensor c wIdx) 1 * dimOf (getTensor c wIdx) 2)] := by
  unfold resizeIm2colTensor at h
  dsimp only at h
  split at h
  · exact absurd h (by simp)
  split at h
  · exact absurd h (by simp)
  obtain rfl : _ = c' := Except.ok.injEq .. ▸ h
  rw [getTensor_setTensor_self _ him]
  simp [mul_assoc]

def resizeOkD : Except OpError Context → Context
  | .ok c => c
  | .error _ => ⟨[]⟩

/-- Witness for C8 on the concrete prepared fixture. -/
theorem C8_witness :
    3 < (mkCtx true .float32).tensors.length
      ∧ (getTensor (resizeOkD (resizeIm2colTensor (mkCtx true .float32) 0 1 2 3)) 3).dims
          = [(getTensor (mkCtx true .float32) 0).dataI32.getD 0 0,
             (getTensor (mkCtx true .float32) 0).dataI32.getD 1 0,
             (getTensor (mkCtx true .float32) 0).dataI32.getD 2 0,
             dimOf (getTensor (mkCtx true .float32) 2) 3
               * (dimOf (getTensor (mkCtx true .float32) 1) 1
                  * dimOf (getTensor (mkCtx true .float32) 1) 2)] :=
  ⟨by decide, C8_im2col_resize_shape (mkCtx true .float32) 0 1 2 3
    (resizeOkD (resizeIm2colTensor (mkCtx true .float32) 0 1 2 3)) (by decide) rfl⟩

/-! ## C7: padding is recomputed on every Eval from the current shapes -/

/-- The padding values a kernel invocation received. -/
def paddingOf : KernelInvocation → Int × Int
  | .floatCall fa => (fa.paddingH, fa.paddingW)
  | .quantCall qa => (qa.paddingH, qa.paddingW)

/-- A successful ResizeTensor only rewrites the target slot. -/
theorem resizeTensor_ok_cases {c : Context} {si ti : Nat} {c' : Context}
    (h : resizeTensor c si ti = .ok c') : ∃ t, c' = setTensor c ti t := by
  unfold resizeTensor at h
  dsimp only at h
  split at h
  · exact absurd h (by simp)
  · exact ⟨_, (Except.ok.inj h).symm⟩

/-- C7: on every successful Eval the padding handed to the numeric kernel is
recomputed from the stride, the filter's spatial dimensions and the currently
resolved output height and width (read back from Eval's own result state);
the OpData padding cache (pH, pW here) is arbitrary and never consulted, so
two Eval calls with different spec values each use paddings consistent with
their own resolved shapes. -/
theorem C7_padding_recomputed (params : TCParams) (c : Context) (n : Node) (d : OpData)
    (pH pW : Int) (c' : Context) (d' : OpData) (inv : KernelInvocation)
    (hso : n.temporaries.getD 0 0 ≠ n.outputs.getD 0 0)
    (hsw : n.temporaries.getD 0 0 ≠ n.inputs.getD 1 0)
    (h : eval params c n { d with paddingH := pH, paddingW := pW } = .ok (c', d', inv)) :
    paddingOf inv
      = computePaddingHeightWidth params.strideH params.strideW
          (dimOf (getTensor c' (n.outputs.getD 0 0)) 1)
          (dimOf (getTensor c' (n.outputs.getD 0 0)) 2)
          (dimOf (getTensor c' (n.inputs.getD 1 0)) 1)
          (dimOf (getTensor c' (n.inputs.getD 1 0)) 2)
          params.padding
      ∧ (d'.paddingH, d'.paddingW) = paddingOf inv := by
  unfold eval at h
  dsimp only at h
  split at h
  · exact absurd h (by simp)
  rename_i c1 heq1
  split at h
  · exact absurd h (by simp)
  rename_i c2 heq2
  split at h
  case _ =>
    -- float32 path
    simp only [Except.ok.injEq, Prod.mk.injEq] at h
    obtain ⟨rfl, rfl, rfl⟩ := h
    exact ⟨rfl, rfl⟩
  case _ =>
    -- uint8 path
    split at h
    · exact absurd h (by simp)
    rename_i c3 heq3
    simp only [Except.ok.injEq, Prod.mk.injEq] at h
    obtain ⟨rfl, rfl, rfl⟩ := h
    have hkey : ∀ j, n.temporaries.getD 0 0 ≠ j →
        getTensor c3 j = getTensor c2 j := by
      intro j hj
      split at heq3
      · split at heq3
        · exact absurd heq3 (by simp)
        · rename_i cmid hres
          obtain rfl : cmid = c3 := Except.ok.inj heq3
          obtain ⟨t, rfl⟩ := resizeTensor_ok_cases hres
          exact getTensor_setTensor_ne _ hj
      · obtain rfl : c2 = c3 := Except.ok.inj heq3
        rfl
    rw [hkey _ hso, hkey _ hsw]
    exact ⟨rfl, rfl⟩
  case _ => exact absurd h (by simp)

def evalOkData (r : Except (OpError × Context × OpData) (Context × OpData × KernelInvocation)) :
    OpData :=
  match r with
  | .ok (_, d, _) => d
  | .error _ => {}

def evalInvD (r : Except (OpError × Context × OpData) (Context × OpData × KernelInvocation)) :
    KernelInvocation :=
  match r with
  | .ok (_, _, inv) => inv
  | .error _ => .floatCall ⟨0, 0, 0, 0, 0, 0, 0, 0⟩

def evalQuantArgsD
    (r : Except (OpError × Context × OpData) (Context × OpData × KernelInvocation)) :
    QuantKernelArgs :=
  match r with
  | .ok (_, _, .quantCall qa) => qa
  | _ => ⟨0, 0, 0, 0, 0, 0, 0, 0, 0, 0, 0, 0, 0, 0, 0, 0⟩

def c7X := eval tcp0 c2State.1 c2State.2.1
  { c2State.2.2 with paddingH := 123, paddingW := 456 }

/-- Witness for C7: the all-ones float fixture with a stale padding cache of
(123, 456); the kernel still receives the freshly computed padding. -/
theorem C7_witness :
    (c2State.2.1.temporaries.getD 0 0 ≠ c2State.2.1.outputs.getD 0 0
      ∧ c2State.2.1.temporaries.getD 0 0 ≠ c2State.2.1.inputs.getD 1 0)
    ∧ (paddingOf (evalInvD c7X)
        = computePaddingHeightWidth tcp0.strideH tcp0.strideW
            (dimOf (getTensor (evalOkCtx c7X) (c2State.2.1.outputs.getD 0 0)) 1)
            (dimOf (getTensor (evalOkCtx c7X) (c2State.2.1.outputs.getD 0 0)) 2)
            (dimOf (getTensor (evalOkCtx c7X) (c2State.2.1.inputs.getD 1 0)) 1)
            (dimOf (getTensor (evalOkCtx c7X) (c2State.2.1.inputs.getD 1 0)) 2)
            tcp0.padding
      ∧ ((evalOkData c7X).paddingH, (evalOkData c7X).paddingW) = paddingOf (evalInvD c7X)) :=
  ⟨⟨by decide, by decide⟩,
   C7_padding_recomputed tcp0 c2State.1 c2State.2.1 c2State.2.2 123 456
     (evalOkCtx c7X) (evalOkData c7X) (evalInvD c7X)
     (show (5 : Nat) ≠ 3 by omega) (show (5 : Nat) ≠ 1 by omega) rfl⟩

/-! ## Lemmas about the im2col allocation step -/

theorem getTensor_allocate_lt (c : Context) (n : Node) (d : OpData) {i : Nat}
    (hi : i < c.tensors.length) :
    getTensor (allocateIm2colTensorIfRequired c n d).1 i = getTensor c i := by
  unfold allocateIm2colTensorIfRequired addTensor
  cases d.im2col_id with
  | none =>
      dsimp only
      rw [getTensor_setTensor_ne _ (by omega)]
      simp [getTensor, List.getD_eq_getElem?_getD, List.getElem?_append_left hi]
  | some _ => rfl

theorem allocate_node (c : Context) (n : Node) (d : OpData) :
    (allocateIm2colTensorIfRequired c n d).2.1.inputs = n.inputs
      ∧ (allocateIm2colTensorIfRequired c n d).2.1.outputs = n.outputs := by
  unfold allocateIm2colTensorIfRequired
  cases d.im2col_id <;> exact ⟨rfl, rfl⟩

theorem allocate_data (c : Context) (n : Node) (d : OpData) :
    (allocateIm2colTensorIfRequired c n d).2.2.im2col_index = d.im2col_index
      ∧ (allocateIm2colTensorIfRequired c n d).2.2.scratch_tensor_index
          = d.scratch_tensor_index
      ∧ (allocateIm2colTensorIfRequired c n d).2.2.output_shift = d.output_shift := by
  unfold allocateIm2colTensorIfRequired
  cases d.im2col_id <;> exact ⟨rfl, rfl, rfl⟩

theorem allocate_temporaries (c : Context) (n : Node) (d : OpData)
    (him : d.im2col_id = none) :
    (allocateIm2colTensorIfRequired c n d).2.1.temporaries = [c.tensors.length] := by
  unfold allocateIm2colTensorIfRequired addTensor
  rw [him]
  simp

theorem allocate_length (c : Context) (n : Node) (d : OpData) (him : d.im2col_id = none) :
    (allocateIm2colTensorIfRequired c n d).1.tensors.length = c.tensors.length + 1 := by
  unfold allocateIm2colTensorIfRequired addTensor
  rw [him]
  dsimp only
  rw [length_setTensor]
  simp

theorem isDynamic_getTensor_markDynamic {c : Context} {i : Nat} (h : i < c.tensors.length) :
    isDynamic (getTensor (markDynamic c i) i) = true := by
  rw [getTensor_markDynamic_self h]
  rfl

/-- Eval on a dynamic output with a non-int32 spec fails in its very first
deferred resize. -/
theorem eval_err_spec_type (params : TCParams) (c : Context) (n : Node) (d : OpData)
    (hdyn : isDynamic (getTensor c (n.outputs.getD 0 0)) = true)
    (hbad : (getTensor c (n.inputs.getD 0 0)).type ≠ .int32) :
    evalErr (eval params c n d) = some .shapeTensorNotInt32 := by
  unfold eval
  dsimp only
  rw [if_pos hdyn]
  have hrt : resizeTensor c (n.inputs.getD 0 0) (n.outputs.getD 0 0)
      = .error .shapeTensorNotInt32 := by
    unfold resizeTensor
    dsimp only
    rw [if_pos hbad]
  rw [hrt]
  rfl

/-- Eval on a dynamic output and dynamic unfold buffer with an int32 spec of
element count other than 4 passes the output resize and fails in the im2col
resize. -/
theorem eval_err_spec_count (params : TCParams) (c : Context) (n : Node) (d : OpData)
    (hdyn : isDynamic (getTensor c (n.outputs.getD 0 0)) = true)
    (hint : (getTensor c (n.inputs.getD 0 0)).type = .int32)
    (hso : n.inputs.getD 0 0 ≠ n.outputs.getD 0 0)
    (himo : n.outputs.getD 0 0 ≠ n.temporaries.getD d.im2col_index 0)
    (himdyn : isDynamic (getTensor c (n.temporaries.getD d.im2col_index 0)) = true)
    (hlen : numElements (getTensor c (n.inputs.getD 0 0)) ≠ 4) :
    evalErr (eval params c n d) = some .shapeTensorCountNot4 := by
  unfold eval
  dsimp only
  rw [if_pos hdyn]
  have hnt : ¬(getTensor c (n.inputs.getD 0 0)).type ≠ TfType.int32 := fun hh => hh hint
  have hrt : resizeTensor c (n.inputs.getD 0 0) (n.outputs.getD 0 0)
      = .ok (setTensor c (n.outputs.getD 0 0)
          { getTensor c (n.outputs.getD 0 0) with
              dims := (getTensor c (n.inputs.getD 0 0)).dataI32.take
                (numElements (getTensor c (n.inputs.getD 0 0))) }) := by
    unfold resizeTensor
    dsimp only
    rw [if_neg hnt]
  rw [hrt]
  dsimp only
  rw [getTensor_setTensor_ne _ himo, if_pos himdyn]
  have hric : resizeIm2colTensor
      (setTensor c (n.outputs.getD 0 0)
        { getTensor c (n.outputs.getD 0 0) with
            dims := (getTensor c (n.inputs.getD 0 0)).dataI32.take
              (numElements (getTensor c (n.inputs.getD 0 0))) })
      (n.inputs.getD 0 0) (n.inputs.getD 1 0) (n.inputs.getD 2 0)
      (n.temporaries.getD d.im2col_index 0)
      = .error .shapeTensorCountNot4 := by
    unfold resizeIm2colTensor
    dsimp only
    rw [getTensor_setTensor_ne _ (fun h => hso h.symm), if_neg hnt, if_pos hlen]
  rw [hric]
  rfl

/-- Prepare rejects an output-shape spec of rank other than 1, whether the
spec is constant or not. -/
theorem prep_err_rank (qm : ℚ → Int × Int) (c : Context) (n : Node) (d : OpData)
    (h1 : n.inputs.length = 3) (h2 : n.outputs.length = 1)
    (hi0 : n.inputs.getD 0 0 < c.tensors.length)
    (hr : (getTensor c (n.inputs.getD 0 0)).dims.length ≠ 1) :
    prepErr (prepare qm c n d) = some .outputShapeRankNot1 := by
  unfold prepare
  dsimp only
  rw [(allocate_node c n d).1, getTensor_allocate_lt c n d hi0]
  have e1 : ¬(n.inputs.length ≠ 3) := by simp [h1]
  have e2 : ¬(n.outputs.length ≠ 1) := by simp [h2]
  rw [if_neg e1, if_neg e2, if_pos hr]
  rfl

/-- Prepare with a constant spec of non-int32 type fails in the eager output
resize. -/
theorem prep_err_const_type (qm : ℚ → Int × Int) (c : Context) (n : Node) (d : OpData)
    (h1 : n.inputs.length = 3) (h2 : n.outputs.length = 1)
    (hi0 : n.inputs.getD 0 0 < c.tensors.length)
    (hi1 : n.inputs.getD 1 0 < c.tensors.length)
    (hi2 : n.inputs.getD 2 0 < c.tensors.length)
    (ho : n.outputs.getD 0 0 < c.tensors.length)
    (hro : (getTensor c (n.inputs.getD 0 0)).dims.length = 1)
    (hri : (getTensor c (n.inputs.getD 2 0)).dims.length = 4)
    (hrw : (getTensor c (n.inputs.getD 1 0)).dims.length = 4)
    (hsupp : (getTensor c (n.inputs.getD 2 0)).type = .float32
      ∨ (getTensor c (n.inputs.getD 2 0)).type = .uint8)
    (hwt : (getTensor c (n.inputs.getD 1 0)).type = (getTensor c (n.inputs.getD 2 0)).type)
    (hot : (getTensor c (n.outputs.getD 0 0)).type = (getTensor c (n.inputs.getD 2 0)).type)
    (hch : dimOf (getTensor c (n.inputs.getD 2 0)) 3 = dimOf (getTensor c (n.inputs.getD 1 0)) 3)
    (hconst : (getTensor c (n.inputs.getD 0 0)).isConst = true)
    (htype : (getTensor c (n.inputs.getD 0 0)).type ≠ .int32) :
    prepErr (prepare qm c n d) = some .shapeTensorNotInt32 := by
  unfold prepare
  dsimp only
  rw [(allocate_node c n d).1, (allocate_node c n d).2, getTensor_allocate_lt c n d hi0,
    getTensor_allocate_lt c n d hi1, getTensor_allocate_lt c n d hi2,
    getTensor_allocate_lt c n d ho]
  have e1 : ¬(n.inputs.length ≠ 3) := fun hh => hh h1
  have e2 : ¬(n.outputs.length ≠ 1) := fun hh => hh h2
  have e3 : ¬((getTensor c (n.inputs.getD 0 0)).dims.length ≠ 1) := fun hh => hh hro
  have e4 : ¬((getTensor c (n.inputs.getD 2 0)).dims.length ≠ 4) := fun hh => hh hri
  have e5 : ¬((getTensor c (n.inputs.getD 1 0)).dims.length ≠ 4) := fun hh => hh hrw
  have e6 : ¬¬((getTensor c (n.inputs.getD 2 0)).type = .float32
      ∨ (getTensor c (n.inputs.getD 2 0)).type = .uint8) := not_not_intro hsupp
  have e7 : ¬((getTensor c (n.inputs.getD 1 0)).type
      ≠ (getTensor c (n.inputs.getD 2 0)).type) := fun hh => hh hwt
  have e8 : ¬((getTensor c (n.outputs.getD 0 0)).type
      ≠ (getTensor c (n.inputs.getD 2 0)).type) := fun hh => hh hot
  have e9 : ¬(dimOf (getTensor c (n.inputs.getD 2 0)) 3
      ≠ dimOf (getTensor c (n.inputs.getD 1 0)) 3) := fun hh => hh hch
  have eC : ¬((!(getTensor c (n.inputs.getD 0 0)).isConst) = true) := by
    rw [hconst]; decide
  rw [if_neg e1, if_neg e2, if_neg e3, if_neg e4, if_neg e5, if_neg e6, if_neg e7,
    if_neg e8, if_neg e9, if_neg eC]
  have hrt : resizeTensor (allocateIm2colTensorIfRequired c n d).1
      (n.inputs.getD 0 0) (n.outputs.getD 0 0) = .error .shapeTensorNotInt32 := by
    unfold resizeTensor
    dsimp only
    rw [getTensor_allocate_lt c n d hi0, if_pos htype]
  rw [hrt]
  rfl

/-- Prepare with a constant int32 spec of element count other than 4 resizes
the output, then fails in the im2col resize. -/
theorem prep_err_const_count (qm : ℚ → Int × Int) (c : Context) (n : Node) (d : OpData)
    (h1 : n.inputs.length = 3) (h2 : n.outputs.length = 1)
    (hi0 : n.inputs.getD 0 0 < c.tensors.length)
    (hi1 : n.inputs.getD 1 0 < c.tensors.length)
    (hi2 : n.inputs.getD 2 0 < c.tensors.length)
    (ho : n.outputs.getD 0 0 < c.tensors.length)
    (hso : n.inputs.getD 0 0 ≠ n.outputs.getD 0 0)
    (hro : (getTensor c (n.inputs.getD 0 0)).dims.length = 1)
    (hri : (getTensor c (n.inputs.getD 2 0)).dims.length = 4)
    (hrw : (getTensor c (n.inputs.getD 1 0)).dims.length = 4)
    (hsupp : (getTensor c (n.inputs.getD 2 0)).type = .float32
      ∨ (getTensor c (n.inputs.getD 2 0)).type = .uint8)
    (hwt : (getTensor c (n.inputs.getD 1 0)).type = (getTensor c (n.inputs.getD 2 0)).type)
    (hot : (getTensor c (n.outputs.getD 0 0)).type = (getTensor c (n.inputs.getD 2 0)).type)
    (hch : dimOf (getTensor c (n.inputs.getD 2 0)) 3 = dimOf (getTensor c (n.inputs.getD 1 0)) 3)
    (hconst : (getTensor c (n.inputs.getD 0 0)).isConst = true)
    (hint : (getTensor c (n.inputs.getD 0 0)).type = .int32)
    (hlen : numElements (getTensor c (n.inputs.getD 0 0)) ≠ 4) :
    prepErr (prepare qm c n d) = some .shapeTensorCountNot4 := by
  unfold prepare
  dsimp only
  rw [(allocate_node c n d).1, (allocate_node c n d).2, getTensor_allocate_lt c n d hi0,
    getTensor_allocate_lt c n d hi1, getTensor_allocate_lt c n d hi2,
    getTensor_allocate_lt c n d ho]
  have e1 : ¬(n.inputs.length ≠ 3) := fun hh => hh h1
  have e2 : ¬(n.outputs.length ≠ 1) := fun hh => hh h2
  have e3 : ¬((getTensor c (n.inputs.getD 0 0)).dims.length ≠ 1) := fun hh => hh hro
  have e4 : ¬((getTensor c (n.inputs.getD 2 0)).dims.length ≠ 4) := fun hh => hh hri
  have e5 : ¬((getTensor c (n.inputs.getD 1 0)).dims.length ≠ 4) := fun hh => hh hrw
  have e6 : ¬¬((getTensor c (n.inputs.getD 2 0)).type = .float32
      ∨ (getTensor c (n.inputs.getD 2 0)).type = .uint8) := not_not_intro hsupp
  have e7 : ¬((getTensor c (n.inputs.getD 1 0)).type
      ≠ (getTensor c (n.inputs.getD 2 0)).type) := fun hh => hh hwt
  have e8 : ¬((getTensor c (n.outputs.getD 0 0)).type
      ≠ (getTensor c (n.inputs.getD 2 0)).type) := fun hh => hh hot
  have e9 : ¬(dimOf (getTensor c (n.inputs.getD 2 0)) 3
      ≠ dimOf (getTensor c (n.inputs.getD 1 0)) 3) := fun hh => hh hch
  have eC : ¬((!(getTensor c (n.inputs.getD 0 0)).isConst) = true) := by
    rw [hconst]; decide
  rw [if_neg e1, if_neg e2, if_neg e3, if_neg e4, if_neg e5, if_neg e6, if_neg e7,
    if_neg e8, if_neg e9, if_neg eC]
  have hnt : ¬(getTensor c (n.inputs.getD 0 0)).type ≠ TfType.int32 := fun hh => hh hint
  have hrt : resizeTensor (allocateIm2colTensorIfRequired c n d).1
      (n.inputs.getD 0 0) (n.outputs.getD 0 0)
      = .ok (setTensor (allocateIm2colTensorIfRequired c n d).1 (n.outputs.getD 0 0)
          { getTensor (allocateIm2colTensorIfRequired c n d).1 (n.outputs.getD 0 0) with
              dims := (getTensor c (n.inputs.getD 0 0)).dataI32.take
                (numElements (getTensor c (n.inputs.getD 0 0))) }) := by
    unfold resizeTensor
    dsimp only
    rw [getTensor_allocate_lt c n d hi0, if_neg hnt]
  rw [hrt]
  dsimp only
  have hric : resizeIm2colTensor
      (setTensor (allocateIm2colTensorIfRequired c n d).1 (n.outputs.getD 0 0)
        { getTensor (allocateIm2colTensorIfRequired c n d).1 (n.outputs.getD 0 0) with
            dims := (getTensor c (n.inputs.getD 0 0)).dataI32.take
              (numElements (getTensor c (n.inputs.getD 0 0))) })
      (n.inputs.getD 0 0) (n.inputs.getD 1 0) (n.inputs.getD 2 0)
      ((allocateIm2colTensorIfRequired c n d).2.1.temporaries.getD
        (allocateIm2colTensorIfRequired c n d).2.2.im2col_index 0)
      = .error .shapeTensorCountNot4 := by
    unfold resizeIm2colTensor
    dsimp only
    rw [getTensor_setTensor_ne _ (fun h => hso h.symm), getTensor_allocate_lt c n d hi0,
      if_neg hnt, if_pos hlen]
  rw [hric]
  rfl

/-- With a non-constant spec of non-int32 type, Prepare succeeds (everything
is deferred) and the first Eval fails with the int32 shape error. -/
theorem prep_eval_nonconst_type (qm : ℚ → Int × Int) (params : TCParams)
    (c : Context) (n : Node) (d : OpData)
    (h1 : n.inputs.length = 3) (h2 : n.outputs.length = 1)
    (hi0 : n.inputs.getD 0 0 < c.tensors.length)
    (hi1 : n.inputs.getD 1 0 < c.tensors.length)
    (hi2 : n.inputs.getD 2 0 < c.tensors.length)
    (ho : n.outputs.getD 0 0 < c.tensors.length)
    (hso : n.inputs.getD 0 0 ≠ n.outputs.getD 0 0)
    (hss : d.scratch_tensor_index ≠ n.inputs.getD 0 0)
    (hsout : d.scratch_tensor_index ≠ n.outputs.getD 0 0)
    (him : d.im2col_id = none) (himi : d.im2col_index = 0)
    (hro : (getTensor c (n.inputs.getD 0 0)).dims.length = 1)
    (hri : (getTensor c (n.inputs.getD 2 0)).dims.length = 4)
    (hrw : (getTensor c (n.inputs.getD 1 0)).dims.length = 4)
    (hsupp : (getTensor c (n.inputs.getD 2 0)).type = .float32
      ∨ (getTensor c (n.inputs.getD 2 0)).type = .uint8)
    (hwt : (getTensor c (n.inputs.getD 1 0)).type = (getTensor c (n.inputs.getD 2 0)).type)
    (hot : (getTensor c (n.outputs.getD 0 0)).type = (getTensor c (n.inputs.getD 2 0)).type)
    (hch : dimOf (getTensor c (n.inputs.getD 2 0)) 3 = dimOf (getTensor c (n.inputs.getD 1 0)) 3)
    (hnc : (getTensor c (n.inputs.getD 0 0)).isConst = false)
    (htype : (getTensor c (n.inputs.getD 0 0)).type ≠ .int32) :
    prepIsOk (prepare qm c n d) = true
      ∧ evalErr (eval params (prepStateD (prepare qm c n d)).1
          (prepStateD (prepare qm c n d)).2.1 (prepStateD (prepare qm c n d)).2.2)
        = some .shapeTensorNotInt32 := by
  have hne_len_out : c.tensors.length ≠ n.outputs.getD 0 0 := by omega
  have hne_len_spec : c.tensors.length ≠ n.inputs.getD 0 0 := by omega
  have hne_out_spec : n.outputs.getD 0 0 ≠ n.inputs.getD 0 0 := fun hh => hso hh.symm
  have hlt_out : n.outputs.getD 0 0 < (allocateIm2colTensorIfRequired c n d).1.tensors.length := by
    rw [allocate_length c n d him]; omega
  unfold prepare
  dsimp only
  rw [(allocate_node c n d).1, (allocate_node c n d).2, getTensor_allocate_lt c n d hi0,
    getTensor_allocate_lt c n d hi1, getTensor_allocate_lt c n d hi2,
    getTensor_allocate_lt c n d ho]
  have e1 : ¬(n.inputs.length ≠ 3) := fun hh => hh h1
  have e2 : ¬(n.outputs.length ≠ 1) := fun hh => hh h2
  have e3 : ¬((getTensor c (n.inputs.getD 0 0)).dims.length ≠ 1) := fun hh => hh hro
  have e4 : ¬((getTensor c (n.inputs.getD 2 0)).dims.length ≠ 4) := fun hh => hh hri
  have e5 : ¬((getTensor c (n.inputs.getD 1 0)).dims.length ≠ 4) := fun hh => hh hrw
  have e6 : ¬¬((getTensor c (n.inputs.getD 2 0)).type = .float32
      ∨ (getTensor c (n.inputs.getD 2 0)).type = .uint8) := not_not_intro hsupp
  have e7 : ¬((getTensor c (n.inputs.getD 1 0)).type
      ≠ (getTensor c (n.inputs.getD 2 0)).type) := fun hh => hh hwt
  have e8 : ¬((getTensor c (n.outputs.getD 0 0)).type
      ≠ (getTensor c (n.inputs.getD 2 0)).type) := fun hh => hh hot
  have e9 : ¬(dimOf (getTensor c (n.inputs.getD 2 0)) 3
      ≠ dimOf (getTensor c (n.inputs.getD 1 0)) 3) := fun hh => hh hch
  have eCt : (!(getTensor c (n.inputs.getD 0 0)).isConst) = true := by rw [hnc]; rfl
  rw [if_neg e1, if_neg e2, if_neg e3, if_neg e4, if_neg e5, if_neg e6, if_neg e7,
    if_neg e8, if_neg e9, if_pos eCt]
  dsimp only
  rcases hsupp with hf | hu
  · have hft : ¬((getTensor c (n.inputs.getD 2 0)).type = TfType.uint8) :=
      fun hh => TfType.noConfusion (hf.symm.trans hh)
    rw [if_neg hft]
    refine ⟨rfl, ?_⟩
    refine eval_err_spec_type params _ _ _ ?_ ?_
    · dsimp only [prepStateD]
      rw [(allocate_node c n d).2, allocate_temporaries c n d him,
        (allocate_data c n d).1, himi]
      simp only [List.getD_cons_zero]
      rw [getTensor_markDynamic_ne hne_len_out]
      exact isDynamic_getTensor_markDynamic hlt_out
    · dsimp only [prepStateD]
      rw [(allocate_node c n d).1, allocate_temporaries c n d him,
        (allocate_data c n d).1, himi]
      simp only [List.getD_cons_zero]
      rw [getTensor_markDynamic_ne hne_len_spec, getTensor_markDynamic_ne hne_out_spec,
        getTensor_allocate_lt c n d hi0]
      exact htype
  · rw [if_pos hu, if_pos eCt]
    dsimp only
    refine ⟨rfl, ?_⟩
    refine eval_err_spec_type params _ _ _ ?_ ?_
    · dsimp only [prepStateD]
      rw [(allocate_data c n d).2.1, allocate_temporaries c n d him,
        (allocate_data c n d).1, himi]
      simp only [List.getD_cons_zero]
      rw [getTensor_markDynamic_ne hsout, getTensor_setTensor_ne _ hsout,
        getTensor_markDynamic_ne hne_len_out]
      exact isDynamic_getTensor_markDynamic hlt_out
    · dsimp only [prepStateD]
      rw [(allocate_data c n d).2.1, allocate_temporaries c n d him,
        (allocate_data c n d).1, himi]
      simp only [List.getD_cons_zero]
      rw [getTensor_markDynamic_ne hss, getTensor_setTensor_ne _ hss,
        getTensor_markDynamic_ne hne_len_spec, getTensor_markDynamic_ne hne_out_spec,
        getTensor_allocate_lt c n d hi0]
      exact htype

/-- With a non-constant int32 spec of element count other than 4, Prepare
succeeds and the first Eval resizes the output but fails the 4-element check
of the im2col resize. -/
theorem prep_eval_nonconst_count (qm : ℚ → Int × Int) (params : TCParams)
    (c : Context) (n : Node) (d : OpData)
    (h1 : n.inputs.length = 3) (h2 : n.outputs.length = 1)
    (hi0 : n.inputs.getD 0 0 < c.tensors.length)
    (hi1 : n.inputs.getD 1 0 < c.tensors.length)
    (hi2 : n.inputs.getD 2 0 < c.tensors.length)
    (ho : n.outputs.getD 0 0 < c.tensors.length)
    (hscr : d.scratch_tensor_index < c.tensors.length)
    (hso : n.inputs.getD 0 0 ≠ n.outputs.getD 0 0)
    (hss : d.scratch_tensor_index ≠ n.inputs.getD 0 0)
    (hsout : d.scratch_tensor_index ≠ n.outputs.getD 0 0)
    (him : d.im2col_id = none) (himi : d.im2col_index = 0)
    (hro : (getTensor c (n.inputs.getD 0 0)).dims.length = 1)
    (hri : (getTensor c (n.inputs.getD 2 0)).dims.length = 4)
    (hrw : (getTensor c (n.inputs.getD 1 0)).dims.length = 4)
    (hsupp : (getTensor c (n.inputs.getD 2 0)).type = .float32
      ∨ (getTensor c (n.inputs.getD 2 0)).type = .uint8)
    (hwt : (getTensor c (n.inputs.getD 1 0)).type = (getTensor c (n.inputs.getD 2 0)).type)
    (hot : (getTensor c (n.outputs.getD 0 0)).type = (getTensor c (n.inputs.getD 2 0)).type)
    (hch : dimOf (getTensor c (n.inputs.getD 2 0)) 3 = dimOf (getTensor c (n.inputs.getD 1 0)) 3)
    (hnc : (getTensor c (n.inputs.getD 0 0)).isConst = false)
    (hint : (getTensor c (n.inputs.getD 0 0)).type = .int32)
    (hlen : numElements (getTensor c (n.inputs.getD 0 0)) ≠ 4) :
    prepIsOk (prepare qm c n d) = true
      ∧ evalErr (eval params (prepStateD (prepare qm c n d)).1
          (prepStateD (prepare qm c n d)).2.1 (prepStateD (prepare qm c n d)).2.2)
        = some .shapeTensorCountNot4 := by
  have hne_len_out : c.tensors.length ≠ n.outputs.getD 0 0 := by omega
  have hne_len_spec : c.tensors.length ≠ n.inputs.getD 0 0 := by omega
  have hne_out_spec : n.outputs.getD 0 0 ≠ n.inputs.getD 0 0 := fun hh => hso hh.symm
  have hlt_out : n.outputs.getD 0 0 < (allocateIm2colTensorIfRequired c n d).1.tensors.length := by
    rw [allocate_length c n d him]; omega
  have hlt_len : c.tensors.length
      < (markDynamic (allocateIm2colTensorIfRequired c n d).1 (n.outputs.getD 0 0)).tensors.length := by
    rw [length_markDynamic, allocate_length c n d him]; omega
  unfold prepare
  dsimp only
  rw [(allocate_node c n d).1, (allocate_node c n d).2, getTensor_allocate_lt c n d hi0,
    getTensor_allocate_lt c n d hi1, getTensor_allocate_lt c n d hi2,
    getTensor_allocate_lt c n d ho]
  have e1 : ¬(n.inputs.length ≠ 3) := fun hh => hh h1
  have e2 : ¬(n.outputs.length ≠ 1) := fun hh => hh h2
  have e3 : ¬((getTensor c (n.inputs.getD 0 0)).dims.length ≠ 1) := fun hh => hh hro
  have e4 : ¬((getTensor c (n.inputs.getD 2 0)).dims.length ≠ 4) := fun hh => hh hri
  have e5 : ¬((getTensor c (n.inputs.getD 1 0)).dims.length ≠ 4) := fun hh => hh hrw
  have e6 : ¬¬((getTensor c (n.inputs.getD 2 0)).type = .float32
      ∨ (getTensor c (n.inputs.getD 2 0)).type = .uint8) := not_not_intro hsupp
  have e7 : ¬((getTensor c (n.inputs.getD 1 0)).type
      ≠ (getTensor c (n.inputs.getD 2 0)).type) := fun hh => hh hwt
  have e8 : ¬((getTensor c (n.outputs.getD 0 0)).type
      ≠ (getTensor c (n.inputs.getD 2 0)).type) := fun hh => hh hot
  have e9 : ¬(dimOf (getTensor c (n.inputs.getD 2 0)) 3
      ≠ dimOf (getTensor c (n.inputs.getD 1 0)) 3) := fun hh => hh hch
  have eCt : (!(getTensor c (n.inputs.getD 0 0)).isConst) = true := by rw [hnc]; rfl
  rw [if_neg e1, if_neg e2, if_neg e3, if_neg e4, if_neg e5, if_neg e6, if_neg e7,
    if_neg e8, if_neg e9, if_pos eCt]
  dsimp only
  rcases hsupp with hf | hu
  · have hft : ¬((getTensor c (n.inputs.getD 2 0)).type = TfType.uint8) :=
      fun hh => TfType.noConfusion (hf.symm.trans hh)
    rw [if_neg hft]
    refine ⟨rfl, ?_⟩
    refine eval_err_spec_count params _ _ _ ?_ ?_ ?_ ?_ ?_ ?_
    · dsimp only [prepStateD]
      rw [(allocate_node c n d).2, allocate_temporaries c n d him,
        (allocate_data c n d).1, himi]
      simp only [List.getD_cons_zero]
      rw [getTensor_markDynamic_ne hne_len_out]
      exact isDynamic_getTensor_markDynamic hlt_out
    · dsimp only [prepStateD]
      rw [(allocate_node c n d).1, allocate_temporaries c n d him,
        (allocate_data c n d).1, himi]
      simp only [List.getD_cons_zero]
      rw [getTensor_markDynamic_ne hne_len_spec, getTensor_markDynamic_ne hne_out_spec,
        getTensor_allocate_lt c n d hi0]
      exact hint
    · dsimp only [prepStateD]
      rw [(allocate_node c n d).1, (allocate_node c n d).2]
      exact hso
    · dsimp only [prepStateD]
      rw [(allocate_node c n d).2, allocate_temporaries c n d him,
        (allocate_data c n d).1, himi]
      simp only [List.getD_cons_zero]
      exact fun hh => hne_len_out hh.symm
    · dsimp only [prepStateD]
      rw [allocate_temporaries c n d him, (allocate_data c n d).1, himi]
      simp only [List.getD_cons_zero]
      exact isDynamic_getTensor_markDynamic hlt_len
    · dsimp only [prepStateD]
      rw [(allocate_node c n d).1, allocate_temporaries c n d him,
        (allocate_data c n d).1, himi]
      simp only [List.getD_cons_zero]
      rw [getTensor_markDynamic_ne hne_len_spec, getTensor_markDynamic_ne hne_out_spec,
        getTensor_allocate_lt c n d hi0]
      exact hlen
  · rw [if_pos hu, if_pos eCt]
    dsimp only
    refine ⟨rfl, ?_⟩
    have hlt_scr : d.scratch_tensor_index
        < (setTensor (markDynamic (markDynamic (allocateIm2colTensorIfRequired c n d).1
            (n.outputs.getD 0 0)) (c.tensors.length)) d.scratch_tensor_index
            { getTensor (markDynamic (markDynamic (allocateIm2colTensorIfRequired c n d).1
                (n.outputs.getD 0 0)) (c.tensors.length)) d.scratch_tensor_index with
                type := .int32, alloc := .arenaRw }).tensors.length := by
      rw [length_setTensor, length_markDynamic, length_markDynamic,
        allocate_length c n d him]
      omega
    refine eval_err_spec_count params _ _ _ ?_ ?_ ?_ ?_ ?_ ?_
    · dsimp only [prepStateD]
      rw [(allocate_data c n d).2.1, allocate_temporaries c n d him,
        (allocate_data c n d).1, himi]
      simp only [List.getD_cons_zero]
      rw [getTensor_markDynamic_ne hsout, getTensor_setTensor_ne _ hsout,
        getTensor_markDynamic_ne hne_len_out]
      exact isDynamic_getTensor_markDynamic hlt_out
    · dsimp only [prepStateD]
      rw [(allocate_data c n d).2.1, allocate_temporaries c n d him,
        (allocate_data c n d).1, himi]
      simp only [List.getD_cons_zero]
      rw [getTensor_markDynamic_ne hss, getTensor_setTensor_ne _ hss,
        getTensor_markDynamic_ne hne_len_spec, getTensor_markDynamic_ne hne_out_spec,
        getTensor_allocate_lt c n d hi0]
      exact hint
    · dsimp only [prepStateD]
      exact hso
    · dsimp only [prepStateD]
      rw [(allocate_data c n d).1, (allocate_data c n d).2.1, himi]
      simp only [List.getD_cons_zero]
      exact fun hh => hsout hh.symm
    · dsimp only [prepStateD]
      rw [(allocate_data c n d).2.1, allocate_temporaries c n d him,
        (allocate_data c n d).1, himi]
      simp only [List.getD_cons_zero]
      exact isDynamic_getTensor_markDynamic hlt_scr
    · dsimp only [prepStateD]
      rw [(allocate_data c n d).2.1, allocate_temporaries c n d him,
        (allocate_data c n d).1, himi]
      simp only [List.getD_cons_zero]
      rw [getTensor_markDynamic_ne hss, getTensor_setTensor_ne _ hss,
        getTensor_markDynamic_ne hne_len_spec, getTensor_markDynamic_ne hne_out_spec,
        getTensor_allocate_lt c n d hi0]
      exact hlen

/-! ## C4: type mismatch in Prepare -/

/-- Fixture with mismatched types: uint8 filter, float32 data input. -/
def c4Ctx : Context :=
  ⟨[{ type := .int32, dims := [4], dataI32 := [1, 3, 3, 1], isConst := true },
    { type := .uint8, dims := [1, 2, 2, 1] },
    { type := .float32, dims := [1, 2, 2, 1], dataF := onesF },
    { type := .float32 },
    {}]⟩

def c4Prep := prepare qm0 c4Ctx node0 data0

/-- C4 counterexample: the claim says that on a filter/input type mismatch
Prepare signals a type error before any buffer is allocated or resized, with
no tensor state modified prior to the failure.  The error is indeed a type
error, but the state at failure shows an extra allocated tensor (6 instead of
5) and a rebuilt temporaries array: AllocateIm2colTensorIfRequired runs before
the type check, so tensor state is modified first. -/
theorem C4_counterexample :
    prepErr c4Prep = some .weightsTypeMismatch
      ∧ OpError.weightsTypeMismatch.isTypeError = true
      ∧ c4Ctx.tensors.length = 5
      ∧ (prepErrState c4Prep).1.tensors.length = 6
      ∧ (prepErrState c4Prep).2.1.temporaries = [5]
      ∧ node0.temporaries = [] := by
  refine ⟨?_, ?_, ?_, ?_, ?_, ?_⟩ <;> decide

/-- C4 amended: whenever the filter type differs from the data input type (and
the checks preceding it pass), Prepare signals the type error before any
tensor is resized or retagged: every tensor that existed on entry keeps its
dims and its allocation kind at the moment of failure.  (The im2col temporary
may however already have been allocated: the claim's stronger "no tensor state
is modified" is refuted by C4_counterexample.) -/
theorem C4_amended_type_error_before_any_resize (qm : ℚ → Int × Int)
    (c : Context) (n : Node) (d : OpData)
    (h1 : n.inputs.length = 3) (h2 : n.outputs.length = 1)
    (hi0 : n.inputs.getD 0 0 < c.tensors.length)
    (hi1 : n.inputs.getD 1 0 < c.tensors.length)
    (hi2 : n.inputs.getD 2 0 < c.tensors.length)
    (hro : (getTensor c (n.inputs.getD 0 0)).dims.length = 1)
    (hri : (getTensor c (n.inputs.getD 2 0)).dims.length = 4)
    (hrw : (getTensor c (n.inputs.getD 1 0)).dims.length = 4)
    (hsupp : (getTensor c (n.inputs.getD 2 0)).type = .float32
      ∨ (getTensor c (n.inputs.getD 2 0)).type = .uint8)
    (hmm2 : (getTensor c (n.inputs.getD 1 0)).type ≠ (getTensor c (n.inputs.getD 2 0)).type) :
    prepErr (prepare qm c n d) = some .weightsTypeMismatch
      ∧ ∀ i, i < c.tensors.length →
          (getTensor (prepErrState (prepare qm c n d)).1 i).dims = (getTensor c i).dims
            ∧ (getTensor (prepErrState (prepare qm c n d)).1 i).alloc
                = (getTensor c i).alloc := by
  unfold prepare
  dsimp only
  rw [(allocate_node c n d).1, getTensor_allocate_lt c n d hi0,
    getTensor_allocate_lt c n d hi1, getTensor_allocate_lt c n d hi2]
  have e1 : ¬(n.inputs.length ≠ 3) := fun hh => hh h1
  have e2 : ¬(n.outputs.length ≠ 1) := fun hh => hh h2
  have e3 : ¬((getTensor c (n.inputs.getD 0 0)).dims.length ≠ 1) := fun hh => hh hro
  have e4 : ¬((getTensor c (n.inputs.getD 2 0)).dims.length ≠ 4) := fun hh => hh hri
  have e5 : ¬((getTensor c (n.inputs.getD 1 0)).dims.length ≠ 4) := fun hh => hh hrw
  have e6 : ¬¬((getTensor c (n.inputs.getD 2 0)).type = .float32
      ∨ (getTensor c (n.inputs.getD 2 0)).type = .uint8) := not_not_intro hsupp
  rw [if_neg e1, if_neg e2, if_neg e3, if_neg e4, if_neg e5, if_neg e6, if_pos hmm2]
  refine ⟨rfl, fun i hi => ?_⟩
  dsimp only [prepErrState]
  rw [getTensor_allocate_lt c n d hi]
  exact ⟨rfl, rfl⟩

/-- Witness for the amended C4 on the concrete mismatched fixture. -/
theorem C4_witness :
    (node0.inputs.length = 3 ∧ node0.outputs.length = 1
      ∧ node0.inputs.getD 0 0 < c4Ctx.tensors.length
      ∧ node0.inputs.getD 1 0 < c4Ctx.tensors.length
      ∧ node0.inputs.getD 2 0 < c4Ctx.tensors.length
      ∧ (getTensor c4Ctx (node0.inputs.getD 0 0)).dims.length = 1
      ∧ (getTensor c4Ctx (node0.inputs.getD 2 0)).dims.length = 4
      ∧ (getTensor c4Ctx (node0.inputs.getD 1 0)).dims.length = 4
      ∧ ((getTensor c4Ctx (node0.inputs.getD 2 0)).type = .float32
          ∨ (getTensor c4Ctx (node0.inputs.getD 2 0)).type = .uint8)
      ∧ (getTensor c4Ctx (node0.inputs.getD 1 0)).type
          ≠ (getTensor c4Ctx (node0.inputs.getD 2 0)).type)
    ∧ prepErr (prepare qm0 c4Ctx node0 data0) = some .weightsTypeMismatch
    ∧ (getTensor (prepErrState (prepare qm0 c4Ctx node0 data0)).1 3).dims
        = (getTensor c4Ctx 3).dims :=
  ⟨by decide,
   (C4_amended_type_error_before_any_resize qm0 c4Ctx node0 data0 rfl rfl
     (show (0 : Nat) < 5 by omega) (show (1 : Nat) < 5 by omega)
     (show (2 : Nat) < 5 by omega) rfl rfl rfl (Or.inl rfl)
     (fun hh => TfType.noConfusion hh)).1,
   ((C4_amended_type_error_before_any_resize qm0 c4Ctx node0 data0 rfl rfl
     (show (0 : Nat) < 5 by omega) (show (1 : Nat) < 5 by omega)
     (show (2 : Nat) < 5 by omega) rfl rfl rfl (Or.inl rfl)
     (fun hh => TfType.noConfusion hh)).2 3 (show (3 : Nat) < 5 by omega)).1⟩

/-! ## C5: where malformed output-shape specs are rejected -/

/-- A rank-2, int32, 4-element, non-constant spec. -/
def c5DynCtx : Context :=
  ⟨[{ type := .int32, dims := [2, 2], dataI32 := [1, 3, 3, 1], isConst := false },
    { type := .float32, dims := [1, 2, 2, 1], dataF := onesF },
    { type := .float32, dims := [1, 2, 2, 1], dataF := onesF },
    { type := .float32 },
    {}]⟩

def c5DynPrep := prepare qm0 c5DynCtx node0 data0

/-- The state Prepare would have produced for that spec, had its rank check
not stopped it: output and im2col temporary marked dynamic. -/
def c5EvalCtx : Context :=
  ⟨[{ type := .int32, dims := [2, 2], dataI32 := [1, 3, 3, 1], isConst := false },
    { type := .float32, dims := [1, 2, 2, 1], dataF := onesF },
    { type := .float32, dims := [1, 2, 2, 1], dataF := onesF },
    { type := .float32, alloc := .dynamicAlloc },
    {},
    { type := .float32, alloc := .dynamicAlloc }]⟩

def c5Node : Node := ⟨[0, 1, 2], [3], [5]⟩

def c5EvalRun := eval tcp0 c5EvalCtx c5Node data0

/-- C5 counterexample: for a non-constant output-shape spec of rank 2, the
claim says the execute step signals the shape error.  In fact Prepare already
rejects the spec (its rank check runs unconditionally), so no execute step of
that invocation exists; and Eval itself contains no rank check at all: run on
the corresponding state it succeeds, flattening the rank-2 spec's four values
into the output shape. -/
theorem C5_counterexample :
    prepErr c5DynPrep = some .outputShapeRankNot1
      ∧ (¬∃ st, c5DynPrep = .ok st)
      ∧ evalErr c5EvalRun = none
      ∧ (floatArgsOf (evalInv c5EvalRun)).isSome = true := by
  refine ⟨by decide, ?_, by decide, by decide⟩
  rintro ⟨st, h⟩
  have h2 : prepIsOk c5DynPrep = false := by decide
  rw [h] at h2
  exact Bool.noConfusion h2

/-- C5 amended: a defective output-shape spec (rank not 1, type not int32, or
element count not 4) is rejected with a shape error as follows: rank is
checked by Prepare for constant and non-constant specs alike; the type and
element-count defects are caught by Prepare when the spec is constant and by
the start of the execute step when it is not. -/
theorem C5_amended_shape_error_placement (qm : ℚ → Int × Int) (params : TCParams)
    (c : Context) (n : Node) (d : OpData)
    (h1 : n.inputs.length = 3) (h2 : n.outputs.length = 1)
    (hi0 : n.inputs.getD 0 0 < c.tensors.length)
    (hi1 : n.inputs.getD 1 0 < c.tensors.length)
    (hi2 : n.inputs.getD 2 0 < c.tensors.length)
    (ho : n.outputs.getD 0 0 < c.tensors.length)
    (hscr : d.scratch_tensor_index < c.tensors.length)
    (hso : n.inputs.getD 0 0 ≠ n.outputs.getD 0 0)
    (hss : d.scratch_tensor_index ≠ n.inputs.getD 0 0)
    (hsout : d.scratch_tensor_index ≠ n.outputs.getD 0 0)
    (him : d.im2col_id = none) (himi : d.im2col_index = 0)
    (hri : (getTensor c (n.inputs.getD 2 0)).dims.length = 4)
    (hrw : (getTensor c (n.inputs.getD 1 0)).dims.length = 4)
    (hsupp : (getTensor c (n.inputs.getD 2 0)).type = .float32
      ∨ (getTensor c (n.inputs.getD 2 0)).type = .uint8)
    (hwt : (getTensor c (n.inputs.getD 1 0)).type = (getTensor c (n.inputs.getD 2 0)).type)
    (hot : (getTensor c (n.outputs.getD 0 0)).type = (getTensor c (n.inputs.getD 2 0)).type)
    (hch : dimOf (getTensor c (n.inputs.getD 2 0)) 3
      = dimOf (getTensor c (n.inputs.getD 1 0)) 3) :
    ((getTensor c (n.inputs.getD 0 0)).dims.length ≠ 1 →
        prepErr (prepare qm c n d) = some .outputShapeRankNot1)
      ∧ ((getTensor c (n.inputs.getD 0 0)).dims.length = 1 →
          (getTensor c (n.inputs.getD 0 0)).type ≠ .int32 →
          (getTensor c (n.inputs.getD 0 0)).isConst = true →
          prepErr (prepare qm c n d) = some .shapeTensorNotInt32)
      ∧ ((getTensor c (n.inputs.getD 0 0)).dims.length = 1 →
          (getTensor c (n.inputs.getD 0 0)).type ≠ .int32 →
          (getTensor c (n.inputs.getD 0 0)).isConst = false →
          prepIsOk (prepare qm c n d) = true
            ∧ evalErr (eval params (prepStateD (prepare qm c n d)).1
                (prepStateD (prepare qm c n d)).2.1 (prepStateD (prepare qm c n d)).2.2)
              = some .shapeTensorNotInt32)
      ∧ ((getTensor c (n.inputs.getD 0 0)).dims.length = 1 →
          (getTensor c (n.inputs.getD 0 0)).type = .int32 →
          numElements (getTensor c (n.inputs.getD 0 0)) ≠ 4 →
          (getTensor c (n.inputs.getD 0 0)).isConst = true →
          prepErr (prepare qm c n d) = some .shapeTensorCountNot4)
      ∧ ((getTensor c (n.inputs.getD 0 0)).dims.length = 1 →
          (getTensor c (n.inputs.getD 0 0)).type = .int32 →
          numElements (getTensor c (n.inputs.getD 0 0)) ≠ 4 →
          (getTensor c (n.inputs.getD 0 0)).isConst = false →
          prepIsOk (prepare qm c n d) = true
            ∧ evalErr (eval params (prepStateD (prepare qm c n d)).1
                (prepStateD (prepare qm c n d)).2.1 (prepStateD (prepare qm c n d)).2.2)
              = some .shapeTensorCountNot4) :=
  ⟨fun hr => prep_err_rank qm c n d h1 h2 hi0 hr,
   fun hro htype hconst => prep_err_const_type qm c n d h1 h2 hi0 hi1 hi2 ho hro hri hrw
     hsupp hwt hot hch hconst htype,
   fun hro htype hnc => prep_eval_nonconst_type qm params c n d h1 h2 hi0 hi1 hi2 ho hso
     hss hsout him himi hro hri hrw hsupp hwt hot hch hnc htype,
   fun hro hint hlen hconst => prep_err_const_count qm c n d h1 h2 hi0 hi1 hi2 ho hso hro
     hri hrw hsupp hwt hot hch hconst hint hlen,
   fun hro hint hlen hnc => prep_eval_nonconst_count qm params c n d h1 h2 hi0 hi1 hi2 ho
     hscr hso hss hsout him himi hro hri hrw hsupp hwt hot hch hnc hint hlen⟩

/-- Constant int32 spec with five elements, for the C5 witness. -/
def c5wCtx : Context :=
  ⟨[{ type := .int32, dims := [5], dataI32 := [1, 3, 3, 1, 1], isConst := true },
    { type := .float32, dims := [1, 2, 2, 1], dataF := onesF },
    { type := .float32, dims := [1, 2, 2, 1], dataF := onesF },
    { type := .float32 },
    {}]⟩

/-- Witness for the amended C5, exercising the constant count-defect branch. -/
theorem C5_witness :
    (node0.inputs.length = 3 ∧ node0.outputs.length = 1
      ∧ node0.inputs.getD 0 0 < c5wCtx.tensors.length
      ∧ node0.inputs.getD 1 0 < c5wCtx.tensors.length
      ∧ node0.inputs.getD 2 0 < c5wCtx.tensors.length
      ∧ node0.outputs.getD 0 0 < c5wCtx.tensors.length
      ∧ data0.scratch_tensor_index < c5wCtx.tensors.length
      ∧ node0.inputs.getD 0 0 ≠ node0.outputs.getD 0 0
      ∧ data0.scratch_tensor_index ≠ node0.inputs.getD 0 0
      ∧ data0.scratch_tensor_index ≠ node0.outputs.getD 0 0
      ∧ data0.im2col_id = none ∧ data0.im2col_index = 0
      ∧ (getTensor c5wCtx (node0.inputs.getD 2 0)).dims.length = 4
      ∧ (getTensor c5wCtx (node0.inputs.getD 1 0)).dims.length = 4
      ∧ ((getTensor c5wCtx (node0.inputs.getD 2 0)).type = .float32
          ∨ (getTensor c5wCtx (node0.inputs.getD 2 0)).type = .uint8)
      ∧ (getTensor c5wCtx (node0.inputs.getD 1 0)).type
          = (getTensor c5wCtx (node0.inputs.getD 2 0)).type
      ∧ (getTensor c5wCtx (node0.outputs.getD 0 0)).type
          = (getTensor c5wCtx (node0.inputs.getD 2 0)).type
      ∧ dimOf (getTensor c5wCtx (node0.inputs.getD 2 0)) 3
          = dimOf (getTensor c5wCtx (node0.inputs.getD 1 0)) 3)
    ∧ prepErr (prepare qm0 c5wCtx node0 data0) = some .shapeTensorCountNot4 :=
  ⟨by decide,
   (C5_amended_shape_error_placement qm0 tcp0 c5wCtx node0 data0 rfl rfl
     (show (0 : Nat) < 5 by omega) (show (1 : Nat) < 5 by omega)
     (show (2 : Nat) < 5 by omega) (show (3 : Nat) < 5 by omega)
     (show (4 : Nat) < 5 by omega) (show (0 : Nat) ≠ 3 by omega)
     (show (4 : Nat) ≠ 0 by omega) (show (4 : Nat) ≠ 3 by omega)
     rfl rfl rfl rfl (Or.inl rfl) rfl rfl rfl).2.2.2.1
     rfl rfl (show (5 : Nat) ≠ 4 by omega) rfl⟩

/-! ## C10: the shift handed to the quantized kernel is the decomposition
exponent -/

/-- C10: for a successful quantized-mode Prepare followed by Eval, Prepare
stores output_shift as the negated exponent returned by the
quantize-multiplier decomposition of the combined scale
input.scale * filter.scale / output.scale, Eval negates it again, and the
kernel therefore sees exactly the original exponent. -/
theorem C10_shift_roundtrip (qm : ℚ → Int × Int) (params : TCParams)
    (c : Context) (n : Node) (d : OpData) (c1 : Context) (n1 : Node) (d1 : OpData)
    (c' : Context) (d' : OpData) (qa : QuantKernelArgs)
    (hi1 : n.inputs.getD 1 0 < c.tensors.length)
    (hi2 : n.inputs.getD 2 0 < c.tensors.length)
    (ho : n.outputs.getD 0 0 < c.tensors.length)
    (hty : (getTensor c (n.inputs.getD 2 0)).type = .uint8)
    (hprep : prepare qm c n d = .ok (c1, n1, d1))
    (heval : eval params c1 n1 d1 = .ok (c', d', .quantCall qa)) :
    d1.output_shift
        = -(qm ((getTensor c (n.inputs.getD 2 0)).scale
            * (getTensor c (n.inputs.getD 1 0)).scale
            / (getTensor c (n.outputs.getD 0 0)).scale)).2
      ∧ qa.outputShift
        = (qm ((getTensor c (n.inputs.getD 2 0)).scale
            * (getTensor c (n.inputs.getD 1 0)).scale
            / (getTensor c (n.outputs.getD 0 0)).scale)).2 := by
  have hshift : d1.output_shift
      = -(qm ((getTensor c (n.inputs.getD 2 0)).scale
          * (getTensor c (n.inputs.getD 1 0)).scale
          / (getTensor c (n.outputs.getD 0 0)).scale)).2 := by
    unfold prepare at hprep
    dsimp only at hprep
    rw [(allocate_node c n d).1, (allocate_node c n d).2,
      getTensor_allocate_lt c n d hi1, getTensor_allocate_lt c n d hi2,
      getTensor_allocate_lt c n d ho] at hprep
    generalize allocateIm2colTensorIfRequired c n d = A at hprep
    obtain ⟨cA, nA, dA⟩ := A
    dsimp only at hprep
    by_cases e1 : n.inputs.length ≠ 3
    · rw [if_pos e1] at hprep; exact Except.noConfusion hprep
    rw [if_neg e1] at hprep
    by_cases e2 : n.outputs.length ≠ 1
    · rw [if_pos e2] at hprep; exact Except.noConfusion hprep
    rw [if_neg e2] at hprep
    by_cases e3 : (getTensor cA (n.inputs.getD 0 0)).dims.length ≠ 1
    · rw [if_pos e3] at hprep; exact Except.noConfusion hprep
    rw [if_neg e3] at hprep
    by_cases e4 : (getTensor c (n.inputs.getD 2 0)).dims.length ≠ 4
    · rw [if_pos e4] at hprep; exact Except.noConfusion hprep
    rw [if_neg e4] at hprep
    by_cases e5 : (getTensor c (n.inputs.getD 1 0)).dims.length ≠ 4
    · rw [if_pos e5] at hprep; exact Except.noConfusion hprep
    rw [if_neg e5] at hprep
    by_cases e6 : ¬((getTensor c (n.inputs.getD 2 0)).type = .float32
        ∨ (getTensor c (n.inputs.getD 2 0)).type = .uint8)
    · rw [if_pos e6] at hprep; exact Except.noConfusion hprep
    rw [if_neg e6] at hprep
    by_cases e7 : (getTensor c (n.inputs.getD 1 0)).type ≠ (getTensor c (n.inputs.getD 2 0)).type
    · rw [if_pos e7] at hprep; exact Except.noConfusion hprep
    rw [if_neg e7] at hprep
    by_cases e8 : (getTensor c (n.outputs.getD 0 0)).type ≠ (getTensor c (n.inputs.getD 2 0)).type
    · rw [if_pos e8] at hprep; exact Except.noConfusion hprep
    rw [if_neg e8] at hprep
    by_cases e9 : dimOf (getTensor c (n.inputs.getD 2 0)) 3
        ≠ dimOf (getTensor c (n.inputs.getD 1 0)) 3
    · rw [if_pos e9] at hprep; exact Except.noConfusion hprep
    rw [if_neg e9] at hprep
    by_cases eC : (!(getTensor cA (n.inputs.getD 0 0)).isConst) = true
    · rw [if_pos eC] at hprep
      dsimp only at hprep
      rw [if_pos hty, if_pos eC] at hprep
      dsimp only at hprep
      simp only [Except.ok.injEq, Prod.mk.injEq] at hprep
      obtain ⟨-, -, hd⟩ := hprep
      rw [← hd]
    · rw [if_neg eC] at hprep
      cases hR1 : resizeTensor cA (n.inputs.getD 0 0) (n.outputs.getD 0 0) with
      | error e =>
          rw [hR1] at hprep
          exact Except.noConfusion hprep
      | ok c2 =>
          rw [hR1] at hprep
          dsimp only at hprep
          cases hR2 : resizeIm2colTensor c2 (n.inputs.getD 0 0) (n.inputs.getD 1 0)
              (n.inputs.getD 2 0) (nA.temporaries.getD dA.im2col_index 0) with
          | error e =>
              rw [hR2] at hprep
              exact Except.noConfusion hprep
          | ok c3 =>
              rw [hR2] at hprep
              dsimp only at hprep
              rw [if_pos hty, if_neg eC] at hprep
              cases hR3 : resizeTensor (setTensor c3 dA.scratch_tensor_index
                  { getTensor c3 dA.scratch_tensor_index with
                      type := .int32, alloc := .arenaRw })
                  (n.inputs.getD 0 0) dA.scratch_tensor_index with
              | error e =>
                  rw [hR3] at hprep
                  exact Except.noConfusion hprep
              | ok c5 =>
                  rw [hR3] at hprep
                  dsimp only at hprep
                  simp only [Except.ok.injEq, Prod.mk.injEq] at hprep
                  obtain ⟨-, -, hd⟩ := hprep
                  rw [← hd]
  refine ⟨hshift, ?_⟩
  have hqa : qa.outputShift = -d1.output_shift := by
    unfold eval at heval
    dsimp only at heval
    split at heval
    · exact Except.noConfusion heval
    split at heval
    · exact Except.noConfusion heval
    split at heval
    · -- float dispatch: impossible, the invocation is a quantCall
      simp only [Except.ok.injEq, Prod.mk.injEq] at heval
      exact KernelInvocation.noConfusion heval.2.2
    · -- uint8 dispatch
      split at heval
      · exact Except.noConfusion heval
      simp only [Except.ok.injEq, Prod.mk.injEq] at heval
      obtain rfl : _ = qa := KernelInvocation.quantCall.inj heval.2.2
      rfl
    · exact Except.noConfusion heval
  rw [hqa, hshift, neg_neg]

/-- Witness for C10: the concrete uint8 fixture with decomposition result
(1073741824, -2); the kernel receives shift -2. -/
theorem C10_witness :
    (node0.inputs.getD 1 0 < (mkCtx true .uint8).tensors.length
      ∧ node0.inputs.getD 2 0 < (mkCtx true .uint8).tensors.length
      ∧ node0.outputs.getD 0 0 < (mkCtx true .uint8).tensors.length
      ∧ (getTensor (mkCtx true .uint8) (node0.inputs.getD 2 0)).type = .uint8)
    ∧ (c3State.2.2.output_shift
        = -(qm0 ((getTensor (mkCtx true .uint8) (node0.inputs.getD 2 0)).scale
            * (getTensor (mkCtx true .uint8) (node0.inputs.getD 1 0)).scale
            / (getTensor (mkCtx true .uint8) (node0.outputs.getD 0 0)).scale)).2
      ∧ (evalQuantArgsD c3Eval).outputShift
        = (qm0 ((getTensor (mkCtx true .uint8) (node0.inputs.getD 2 0)).scale
            * (getTensor (mkCtx true .uint8) (node0.inputs.getD 1 0)).scale
            / (getTensor (mkCtx true .uint8) (node0.outputs.getD 0 0)).scale)).2) :=
  ⟨by decide,
   C10_shift_roundtrip qm0 tcp0 (mkCtx true .uint8) node0 data0
     c3State.1 c3State.2.1 c3State.2.2
     (evalOkCtx c3Eval) (evalOkData c3Eval) (evalQuantArgsD c3Eval)
     (show (1 : Nat) < 5 by omega) (show (2 : Nat) < 5 by omega)
     (show (3 : Nat) < 5 by omega) rfl rfl rfl⟩

end TFLTransposeConv
